import Mathlib

/-!
Shallow embedding of the `econ-tabletop` game state reducer.

Source files:
* `src/ui/web/src/state/gameReducer.ts` — the basic reducer (namespace `Basic`);
* `src/unnamed/part_002` (an extended variant of the same reducer module,
  with `DEAL_DEVELOPMENTS`, `DRAW_POLICIES`, `DISCARD_CARD` and development
  card effects) — namespace `Extended`;
* `src/unnamed/part_003` — the shared card/state type declarations.

Modelling conventions:
* JavaScript numbers that the reducer uses as counts, indices or deltas are
  modelled as `Int` (they are only ever produced and consumed as integers by
  this code; `NaN` never arises because `readParam` filters it out at the only
  place numeric card parameters enter the reducer).
* `Array.prototype.splice(0, n)` with a possibly negative `n` removes
  `max n 0` elements, which `Int.toNat` matches exactly.
* `Record<string, T>` objects that the reducer iterates over are modelled as
  association lists in insertion order, which matches JavaScript's
  enumeration order for the non-numeric string keys (card ids) used here.
  `Record<number, DevelopmentCard[]>` (the per-stage deck) is likewise an
  association list; the reducer only reads single keys, the number of keys,
  and the flattened values, so the ascending-numeric-key enumeration order of
  JavaScript only affects the (never consumed) `deckOrder` field.
* The `manifest` payload is opaque to the reducer; it is modelled as an
  association list of strings standing for the parsed JSON object.
-/

/-- Opaque deck manifest object: the reducer stores it and never reads it. -/
abbrev Manifest : Type := List (String × String)

/-- Cost block of a `PolicyCard` (`src/unnamed/part_003`). -/
structure PolicyCost where
  budget_level : Int
  implementation_complexity : Int
  notes : String
deriving DecidableEq, Repr

/-- Timeline block of a `PolicyCard` (`src/unnamed/part_003`). -/
structure PolicyTimeline where
  time_to_launch : String
  time_to_impact : String
deriving DecidableEq, Repr

/-- Policy card record (`src/unnamed/part_003`). -/
structure PolicyCard where
  id : String
  title : String
  short_description : String
  description : String
  category : String
  cost : PolicyCost
  timeline : PolicyTimeline
  impact_score : Int
  tags : List String
  addresses_tags : List String
  side_effect_tags : List String
  prerequisites_policy_tags : List String
  synergy_policy_tags : List String
  role_restrictions : List String
  art_prompt : String
  flavor_quote : Option String
deriving DecidableEq, Repr

/-- Valence of a development card: "positive" | "negative" | "mixed". -/
inductive Valence where
  | positive
  | negative
  | mixed
deriving DecidableEq, Repr

/-- Activation kind of a development card: "immediate" | "conditional". -/
inductive ActivationType where
  | immediate
  | conditional
deriving DecidableEq, Repr

/-- Activation block of a `DevelopmentCard` (`src/unnamed/part_003`). -/
structure Activation where
  type : ActivationType
  required_policy_tags : List String
deriving DecidableEq, Repr

/-- Effect type tag (`src/unnamed/part_003`). -/
inductive EffectType where
  | DRAW_DEV_NOW
  | DRAW_DEV_NEXT_STAGE_NOW
  | MODIFY_DEV_DRAW_NEXT_ROUND
  | MODIFY_POLICY_DRAW_NEXT_ROUND
  | MODIFY_MAX_POLICIES_THIS_ROUND
deriving DecidableEq, Repr

/-- Effect record: a tag plus a numeric parameter object (`src/unnamed/part_003`). -/
structure Effect where
  type : EffectType
  params : List (String × Int)
deriving DecidableEq, Repr

/-- Suggested visibility of a development card: "faceup" | "facedown" | "either". -/
inductive Visibility where
  | faceup
  | facedown
  | either
deriving DecidableEq, Repr

/-- Development card record (`src/unnamed/part_003`). -/
structure DevelopmentCard where
  id : String
  stage : Int
  title : String
  short_description : String
  description : String
  valence : Valence
  arrows_up : Int
  arrows_down : Int
  severity : Int
  tags : List String
  thread_id : String
  supersedes : Option String
  activation : Activation
  effects : List Effect
  art_prompt : String
  suggested_visibility : Option Visibility
deriving DecidableEq, Repr

/-- Game settings record (`src/unnamed/part_003`). -/
structure GameSettings where
  players : Int
  handSize : Int
  devFaceupStart : Int
  devFacedownStart : Int
  devFaceupPerRound : Int
  devFacedownPerRound : Int
  policyDrawPerRound : Int
  maxPoliciesPerRound : Int
deriving DecidableEq, Repr

/-- Per-stage development deck: `Record<number, DevelopmentCard[]>`. -/
abbrev StageMap : Type := List (Int × List DevelopmentCard)

/-- Attachment map: `Record<string, DevelopmentCard[]>`. -/
abbrev AttachMap : Type := List (String × List DevelopmentCard)

/-- Lookup `stages[i] || []` on the per-stage deck. -/
def lookupStage (stages : StageMap) (i : Int) : List DevelopmentCard :=
  (((stages.find? (fun kv => kv.1 == i)).map (fun kv => kv.2)).getD [])

/-- Lookup `attachments[k]` (returning `none` for a missing key). -/
def lookupAttach (atts : AttachMap) (k : String) : Option (List DevelopmentCard) :=
  (atts.find? (fun kv => kv.1 == k)).map (fun kv => kv.2)

/-- Object spread update `{...atts, [k]: v}`: replace the value in place when
the key exists, append a new entry otherwise (JavaScript key-order semantics). -/
def setAttach (atts : AttachMap) (k : String) (v : List DevelopmentCard) : AttachMap :=
  if atts.any (fun kv => kv.1 == k) then
    atts.map (fun kv => if kv.1 == k then (k, v) else kv)
  else
    atts ++ [(k, v)]

/-- Result record of `dealDevelopments`. -/
structure DealResult where
  faceUp : List DevelopmentCard
  faceDown : List DevelopmentCard
  remaining : List DevelopmentCard
deriving DecidableEq, Repr

/-- Embedding of `dealDevelopments` (identical in both reducer files):
two successive `splice(0, count)` calls on a copy of the input array. -/
def dealDevelopments (cards : List DevelopmentCard) (faceUpCount faceDownCount : Int) :
    DealResult :=
  { faceUp := cards.take faceUpCount.toNat
    faceDown := (cards.drop faceUpCount.toNat).take faceDownCount.toNat
    remaining := (cards.drop faceUpCount.toNat).drop faceDownCount.toNat }

/-- Result record of `drawPolicies`. -/
structure DrawPoliciesResult where
  drawnPolicies : List PolicyCard
  remainingPolicies : List String
deriving DecidableEq, Repr

/-- Embedding of `drawPolicies` (identical in both reducer files). -/
def drawPolicies (policies : List PolicyCard) (deck : List String) (count : Int) :
    DrawPoliciesResult :=
  let drawn := deck.take count.toNat
  { drawnPolicies := policies.filter (fun policy => drawn.contains policy.id)
    remainingPolicies := deck.drop count.toNat }

namespace Basic

/-- `GameStateSnapshot = Omit<GameState, "history" | "future">` for the basic
reducer's `GameState` (`src/unnamed/part_003`). -/
structure Snapshot where
  manifest : Option Manifest
  stageIndex : Int
  round : Int
  policies : List PolicyCard
  developmentsByStage : StageMap
  deckOrder : List String
  policyDeck : List String
  faceUp : List DevelopmentCard
  faceDown : List DevelopmentCard
  dormant : List DevelopmentCard
  implemented : List PolicyCard
  hand : List PolicyCard
  attachments : AttachMap
  log : List String
  selectedDevId : Option String
  selectedPolicyId : Option String
  settings : GameSettings
deriving DecidableEq, Repr

/-- The basic reducer's `GameState` (`src/unnamed/part_003`): the snapshot
fields together with the undo (`history`) and redo (`future`) stacks. -/
structure GameState where
  manifest : Option Manifest
  stageIndex : Int
  round : Int
  policies : List PolicyCard
  developmentsByStage : StageMap
  deckOrder : List String
  policyDeck : List String
  faceUp : List DevelopmentCard
  faceDown : List DevelopmentCard
  dormant : List DevelopmentCard
  implemented : List PolicyCard
  hand : List PolicyCard
  attachments : AttachMap
  log : List String
  selectedDevId : Option String
  selectedPolicyId : Option String
  history : List Snapshot
  future : List Snapshot
  settings : GameSettings
deriving DecidableEq, Repr

/-- Embedding of `createSnapshot`: drop the `history` and `future` fields. -/
def createSnapshot (state : GameState) : Snapshot :=
  { manifest := state.manifest
    stageIndex := state.stageIndex
    round := state.round
    policies := state.policies
    developmentsByStage := state.developmentsByStage
    deckOrder := state.deckOrder
    policyDeck := state.policyDeck
    faceUp := state.faceUp
    faceDown := state.faceDown
    dormant := state.dormant
    implemented := state.implemented
    hand := state.hand
    attachments := state.attachments
    log := state.log
    selectedDevId := state.selectedDevId
    selectedPolicyId := state.selectedPolicyId
    settings := state.settings }

/-- Object spread `{ ...snapshot, history, future }` rebuilding a `GameState`
from a snapshot (used by the `UNDO` and `REDO` cases). -/
def Snapshot.toState (p : Snapshot) (history future : List Snapshot) : GameState :=
  { manifest := p.manifest
    stageIndex := p.stageIndex
    round := p.round
    policies := p.policies
    developmentsByStage := p.developmentsByStage
    deckOrder := p.deckOrder
    policyDeck := p.policyDeck
    faceUp := p.faceUp
    faceDown := p.faceDown
    dormant := p.dormant
    implemented := p.implemented
    hand := p.hand
    attachments := p.attachments
    log := p.log
    selectedDevId := p.selectedDevId
    selectedPolicyId := p.selectedPolicyId
    history := history
    future := future
    settings := p.settings }

/-- Embedding of `createInitialState` from `src/ui/web/src/state/gameReducer.ts`. -/
def createInitialState (settings : GameSettings) : GameState :=
  { manifest := none
    stageIndex := 0
    round := 0
    policies := []
    developmentsByStage := []
    deckOrder := []
    policyDeck := []
    faceUp := []
    faceDown := []
    dormant := []
    implemented := []
    hand := []
    attachments := []
    log := []
    selectedDevId := none
    selectedPolicyId := none
    history := []
    future := []
    settings := settings }

/-- Action type of the basic reducer (`src/ui/web/src/state/gameReducer.ts`),
with the payload objects flattened into constructor arguments. -/
inductive Action where
  | INIT_DECK (manifest : Manifest) (policies : List PolicyCard)
      (developmentsByStage : StageMap) (settings : GameSettings)
  | DEAL_STAGE
  | DRAW_ROUND
  | PLAY_POLICY (policyId : String)
  | ATTACH_DEV (policyId : String) (devId : String)
  | AUTO_ATTACH
  | SELECT_DEV (devId : Option String)
  | SELECT_POLICY (policyId : Option String)
  | ADVANCE_STAGE
  | UNDO
  | REDO
deriving DecidableEq, Repr

/-- Embedding of `findDev` from the basic reducer: first match over
`faceUp`, then `faceDown`, then `dormant`. -/
def findDev (state : GameState) (devId : String) : Option DevelopmentCard :=
  ((state.faceUp.find? (fun item => item.id == devId)).orElse (fun _ =>
    (state.faceDown.find? (fun item => item.id == devId)))).orElse (fun _ =>
      state.dormant.find? (fun item => item.id == devId))

/-- Embedding of `gameReducer` from `src/ui/web/src/state/gameReducer.ts`. -/
def gameReducer (state : GameState) (action : Action) : GameState :=
  match action with
  | .INIT_DECK manifest policies developmentsByStage settings =>
    let snapshot := createSnapshot state
    let policyDeck := policies.map (fun policy => policy.id)
    let deckOrder := ((developmentsByStage.map (fun kv => kv.2)).flatten).map (fun dev => dev.id)
    { state with
      manifest := some manifest
      policies := policies
      developmentsByStage := developmentsByStage
      policyDeck := policyDeck
      deckOrder := deckOrder
      settings := settings
      history := state.history ++ [snapshot]
      future := [] }
  | .DEAL_STAGE =>
    let snapshot := createSnapshot state
    let currentStageCards := lookupStage state.developmentsByStage state.stageIndex
    let res := dealDevelopments currentStageCards
      state.settings.devFaceupStart state.settings.devFacedownStart
    { state with
      faceUp := res.faceUp
      faceDown := res.faceDown
      dormant := currentStageCards.filter
        (fun card => card.activation.type == ActivationType.conditional)
      round := 1
      history := state.history ++ [snapshot]
      future := []
      log := state.log ++
        ["Dealt stage " ++ toString state.stageIndex ++ " developments."] }
  | .DRAW_ROUND =>
    let snapshot := createSnapshot state
    let currentStageCards := lookupStage state.developmentsByStage state.stageIndex
    let remaining := currentStageCards.filter (fun card =>
      !(state.faceUp.any (fun up => up.id == card.id)) &&
      !(state.faceDown.any (fun down => down.id == card.id)))
    let res := dealDevelopments remaining
      state.settings.devFaceupPerRound state.settings.devFacedownPerRound
    let dp := drawPolicies state.policies state.policyDeck state.settings.policyDrawPerRound
    { state with
      faceUp := state.faceUp ++ res.faceUp
      faceDown := state.faceDown ++ res.faceDown
      policyDeck := dp.remainingPolicies
      hand := state.hand ++ dp.drawnPolicies
      round := state.round + 1
      history := state.history ++ [snapshot]
      future := []
      log := state.log ++ ["Round " ++ toString (state.round + 1) ++ " draw."] }
  | .PLAY_POLICY policyId =>
    let snapshot := createSnapshot state
    match state.hand.find? (fun item => item.id == policyId) with
    | none => state
    | some policy =>
      if (state.implemented.length : Int) ≥ state.settings.maxPoliciesPerRound then state
      else
        { state with
          implemented := state.implemented ++ [policy]
          hand := state.hand.filter (fun item => item.id != policyId)
          attachments := setAttach state.attachments policy.id
            ((lookupAttach state.attachments policy.id).getD [])
          history := state.history ++ [snapshot]
          future := []
          log := state.log ++ ["Implemented " ++ policy.title ++ "."] }
  | .ATTACH_DEV policyId devId =>
    let snapshot := createSnapshot state
    match findDev state devId with
    | none => state
    | some dev =>
      let attachments := setAttach state.attachments policyId
        ((lookupAttach state.attachments policyId).getD [] ++ [dev])
      { state with
        faceUp := state.faceUp.filter (fun item => item.id != dev.id)
        faceDown := state.faceDown.filter (fun item => item.id != dev.id)
        dormant := state.dormant.filter (fun item => item.id != dev.id)
        attachments := attachments
        history := state.history ++ [snapshot]
        future := []
        log := state.log ++ ["Attached " ++ dev.title ++ " under policy."] }
  | .AUTO_ATTACH =>
    let snapshot := createSnapshot state
    let implementedTags := (state.implemented.map (fun policy => policy.tags)).flatten
    let autoTargets := state.faceUp.filter (fun dev =>
      dev.activation.type == ActivationType.conditional &&
      dev.activation.required_policy_tags.all (fun tag => implementedTags.contains tag))
    let attachments := autoTargets.foldl (fun acc dev =>
      match state.implemented.find? (fun p =>
          p.tags.any (fun tag => dev.activation.required_policy_tags.contains tag)) with
      | none => acc
      | some policy =>
        setAttach acc policy.id ((lookupAttach acc policy.id).getD [] ++ [dev]))
      state.attachments
    { state with
      faceUp := state.faceUp.filter (fun dev =>
        !(autoTargets.any (fun target => target.id == dev.id)))
      attachments := attachments
      history := state.history ++ [snapshot]
      future := []
      log := state.log ++
        ["Auto-attached " ++ toString autoTargets.length ++ " developments."] }
  | .SELECT_DEV devId =>
    { state with selectedDevId := devId }
  | .SELECT_POLICY policyId =>
    { state with selectedPolicyId := policyId }
  | .ADVANCE_STAGE =>
    let snapshot := createSnapshot state
    { state with
      stageIndex := min (state.stageIndex + 1)
        ((state.developmentsByStage.length : Int) - 1)
      faceUp := []
      faceDown := []
      dormant := []
      implemented := []
      attachments := []
      round := 0
      history := state.history ++ [snapshot]
      future := []
      log := state.log ++
        ["Advanced to stage " ++ toString (state.stageIndex + 1) ++ "."] }
  | .UNDO =>
    match state.history.getLast? with
    | none => state
    | some previous =>
      previous.toState state.history.dropLast (createSnapshot state :: state.future)
  | .REDO =>
    match state.future with
    | [] => state
    | next :: rest =>
      next.toState (state.history ++ [createSnapshot state]) rest

end Basic

namespace Extended

/-- Round modifier record of the extended reducer (`src/unnamed/part_002`). -/
structure RoundModifiers where
  devDrawDeltaNext : Int
  policyDrawDeltaNext : Int
  maxPoliciesDeltaThisRound : Int
deriving DecidableEq, Repr

/-- Snapshot type of the extended reducer: its `GameState` without `history`
and `future`.  The extra fields (discard piles, round modifiers, triggered
effect ids) are exactly those initialised by `createInitialState` in
`src/unnamed/part_002`. -/
structure Snapshot where
  manifest : Option Manifest
  stageIndex : Int
  round : Int
  policies : List PolicyCard
  developmentsByStage : StageMap
  deckOrder : List String
  policyDeck : List String
  faceUp : List DevelopmentCard
  faceDown : List DevelopmentCard
  dormant : List DevelopmentCard
  implemented : List PolicyCard
  hand : List PolicyCard
  attachments : AttachMap
  discardedDevelopments : List DevelopmentCard
  discardedPolicies : List PolicyCard
  log : List String
  selectedDevId : Option String
  selectedPolicyId : Option String
  roundModifiers : RoundModifiers
  triggeredDevEffects : List String
  settings : GameSettings
deriving DecidableEq, Repr

/-- Game state of the extended reducer (`src/unnamed/part_002`). -/
structure GameState where
  manifest : Option Manifest
  stageIndex : Int
  round : Int
  policies : List PolicyCard
  developmentsByStage : StageMap
  deckOrder : List String
  policyDeck : List String
  faceUp : List DevelopmentCard
  faceDown : List DevelopmentCard
  dormant : List DevelopmentCard
  implemented : List PolicyCard
  hand : List PolicyCard
  attachments : AttachMap
  discardedDevelopments : List DevelopmentCard
  discardedPolicies : List PolicyCard
  log : List String
  selectedDevId : Option String
  selectedPolicyId : Option String
  roundModifiers : RoundModifiers
  triggeredDevEffects : List String
  history : List Snapshot
  future : List Snapshot
  settings : GameSettings
deriving DecidableEq, Repr

/-- Embedding of `createSnapshot` from `src/unnamed/part_002`. -/
def createSnapshot (state : GameState) : Snapshot :=
  { manifest := state.manifest
    stageIndex := state.stageIndex
    round := state.round
    policies := state.policies
    developmentsByStage := state.developmentsByStage
    deckOrder := state.deckOrder
    policyDeck := state.policyDeck
    faceUp := state.faceUp
    faceDown := state.faceDown
    dormant := state.dormant
    implemented := state.implemented
    hand := state.hand
    attachments := state.attachments
    discardedDevelopments := state.discardedDevelopments
    discardedPolicies := state.discardedPolicies
    log := state.log
    selectedDevId := state.selectedDevId
    selectedPolicyId := state.selectedPolicyId
    roundModifiers := state.roundModifiers
    triggeredDevEffects := state.triggeredDevEffects
    settings := state.settings }

/-- Object spread `{ ...snapshot, history, future }` for the extended state. -/
def Snapshot.toState (p : Snapshot) (history future : List Snapshot) : GameState :=
  { manifest := p.manifest
    stageIndex := p.stageIndex
    round := p.round
    policies := p.policies
    developmentsByStage := p.developmentsByStage
    deckOrder := p.deckOrder
    policyDeck := p.policyDeck
    faceUp := p.faceUp
    faceDown := p.faceDown
    dormant := p.dormant
    implemented := p.implemented
    hand := p.hand
    attachments := p.attachments
    discardedDevelopments := p.discardedDevelopments
    discardedPolicies := p.discardedPolicies
    log := p.log
    selectedDevId := p.selectedDevId
    selectedPolicyId := p.selectedPolicyId
    roundModifiers := p.roundModifiers
    triggeredDevEffects := p.triggeredDevEffects
    history := history
    future := future
    settings := p.settings }

/-- Embedding of `defaultRoundModifiers` from `src/unnamed/part_002`. -/
def defaultRoundModifiers : RoundModifiers :=
  { devDrawDeltaNext := 0
    policyDrawDeltaNext := 0
    maxPoliciesDeltaThisRound := 0 }

/-- Embedding of `createInitialState` from `src/unnamed/part_002`. -/
def createInitialState (settings : GameSettings) : GameState :=
  { manifest := none
    stageIndex := 0
    round := 0
    policies := []
    developmentsByStage := []
    deckOrder := []
    policyDeck := []
    faceUp := []
    faceDown := []
    dormant := []
    implemented := []
    hand := []
    attachments := []
    discardedDevelopments := []
    discardedPolicies := []
    log := []
    selectedDevId := none
    selectedPolicyId := none
    roundModifiers := defaultRoundModifiers
    triggeredDevEffects := []
    history := []
    future := []
    settings := settings }

/-- Discriminant of a `DISCARD_CARD` payload: "policy" | "development". -/
inductive CardKind where
  | policy
  | development
deriving DecidableEq, Repr

/-- Action type of the extended reducer (`src/unnamed/part_002`). -/
inductive Action where
  | INIT_DECK (manifest : Manifest) (policies : List PolicyCard)
      (developmentsByStage : StageMap) (settings : GameSettings)
  | DEAL_STAGE
  | DRAW_ROUND
  | DEAL_DEVELOPMENTS (stageIndex faceUpCount faceDownCount : Int)
  | DRAW_POLICIES (count : Int)
  | PLAY_POLICY (policyId : String)
  | ATTACH_DEV (policyId : String) (devId : String)
  | AUTO_ATTACH
  | DISCARD_CARD (kind : CardKind) (id : String)
  | SELECT_DEV (devId : Option String)
  | SELECT_POLICY (policyId : Option String)
  | ADVANCE_STAGE
  | UNDO
  | REDO
deriving DecidableEq, Repr

/-- Embedding of the extended `findDev`, which also searches the flattened
attachment lists. -/
def findDev (state : GameState) (devId : String) : Option DevelopmentCard :=
  (((state.faceUp.find? (fun item => item.id == devId)).orElse (fun _ =>
    (state.faceDown.find? (fun item => item.id == devId)))).orElse (fun _ =>
      state.dormant.find? (fun item => item.id == devId))).orElse (fun _ =>
        ((state.attachments.map (fun kv => kv.2)).flatten).find?
          (fun item => item.id == devId))

/-- Embedding of `removeDevFromAttachments`: entries are rewritten in order,
empty buckets are dropped, and all copies of the removed id are collected. -/
def removeDevFromAttachments (atts : AttachMap) (devId : String) :
    AttachMap × List DevelopmentCard :=
  match atts with
  | [] => ([], [])
  | (policyId, devs) :: rest =>
    let remaining := devs.filter (fun dev => dev.id != devId)
    let removedHere :=
      if remaining.length != devs.length then devs.filter (fun dev => dev.id == devId)
      else []
    let tail := removeDevFromAttachments rest devId
    ((if remaining.length > 0 then [(policyId, remaining)] else []) ++ tail.1,
      removedHere ++ tail.2)

/-- JavaScript `Map.prototype.set` on an association list: first insertion
fixes the position of a key, a later `set` overwrites its value in place. -/
def jsMapSet (m : List (String × DevelopmentCard)) (k : String) (v : DevelopmentCard) :
    List (String × DevelopmentCard) :=
  if m.any (fun kv => kv.1 == k) then
    m.map (fun kv => if kv.1 == k then (k, v) else kv)
  else
    m ++ [(k, v)]

/-- The `discardSet` construction of the `DISCARD_CARD` development branch:
`new Map()` filled by `set(card.id, card)` and then its `values()`. -/
def discardDedup (cards : List DevelopmentCard) : List DevelopmentCard :=
  (cards.foldl (fun m card => jsMapSet m card.id card) []).map (fun kv => kv.2)

/-- Update-or-append `{...stages, [stageIndex]: cards}` on the per-stage deck. -/
def setStage (stages : StageMap) (i : Int) (cards : List DevelopmentCard) : StageMap :=
  if stages.any (fun kv => kv.1 == i) then
    stages.map (fun kv => if kv.1 == i then (i, cards) else kv)
  else
    stages ++ [(i, cards)]

/-- Embedding of `readParam`: a missing key reads as `0`.  The source also
maps `NaN` to `0`; `NaN` has no integer counterpart and never reaches the
reducer because this is the only reader of effect parameters. -/
def readParam (params : List (String × Int)) (key : String) : Int :=
  ((params.find? (fun kv => kv.1 == key)).map (fun kv => kv.2)).getD 0

/-- Embedding of `drawDevelopmentsFromStage` from `src/unnamed/part_002`. -/
def drawDevelopmentsFromStage (state : GameState) (stageIndex : Int) (count : Int)
    (source : DevelopmentCard) : GameState × List DevelopmentCard :=
  let stageCards := lookupStage state.developmentsByStage stageIndex
  let usedIds :=
    (state.faceUp.map (fun card => card.id)) ++
    (state.faceDown.map (fun card => card.id)) ++
    (state.dormant.map (fun card => card.id)) ++
    (((state.attachments.map (fun kv => kv.2)).flatten).map (fun card => card.id))
  let available := stageCards.filter (fun card => !(usedIds.contains card.id))
  let drawn := available.take count.toNat
  if drawn.isEmpty then (state, [])
  else
    let drawnIds := drawn.map (fun card => card.id)
    let updatedStage := stageCards.filter (fun card => !(drawnIds.contains card.id))
    ({ state with
        developmentsByStage := setStage state.developmentsByStage stageIndex updatedStage
        faceUp := state.faceUp ++ drawn
        log := state.log ++ [source.title ++ " draws " ++ toString drawn.length ++
          " development card(s) from stage " ++ toString stageIndex ++ "."] },
      drawn)

mutual

/-- Embedding of `applyEffectsForDevelopments` from `src/unnamed/part_002`.
The source recursion is bounded by the per-stage deck, which
`drawDevelopmentsFromStage` strictly shrinks before every nested call; the
explicit `fuel` argument is that bound made structural, and the reducer below
always passes more fuel than the deck can ever supply recursion depth. -/
def applyEffectsForDevelopments (fuel : Nat) (state : GameState) :
    List DevelopmentCard → GameState
  | [] => state
  | dev :: rest =>
    let state1 :=
      if state.triggeredDevEffects.contains dev.id then state
      else if dev.effects.isEmpty then state
      else
        let s2 := applyEffectList fuel state dev.effects dev
        { s2 with triggeredDevEffects := s2.triggeredDevEffects ++ [dev.id] }
    applyEffectsForDevelopments fuel state1 rest

/-- The inner `dev.effects.forEach` loop of `applyEffectsForDevelopments`. -/
def applyEffectList (fuel : Nat) (state : GameState) :
    List Effect → DevelopmentCard → GameState
  | [], _ => state
  | e :: rest, source => applyEffectList fuel (applyEffect fuel state e source) rest source

/-- Embedding of `applyEffect` from `src/unnamed/part_002`. -/
def applyEffect (fuel : Nat) (state : GameState) (effect : Effect)
    (source : DevelopmentCard) : GameState :=
  match effect.type with
  | .DRAW_DEV_NOW =>
    (match fuel with
     | 0 => state
     | fuel' + 1 =>
       let count := readParam effect.params "count"
       let stageOffset := readParam effect.params "stage_offset"
       if count ≤ 0 then state
       else
         let res := drawDevelopmentsFromStage state (state.stageIndex + stageOffset)
           count source
         applyEffectsForDevelopments fuel' res.1 res.2)
  | .DRAW_DEV_NEXT_STAGE_NOW =>
    (match fuel with
     | 0 => state
     | fuel' + 1 =>
       let count := readParam effect.params "count"
       if count ≤ 0 then state
       else
         let res := drawDevelopmentsFromStage state (state.stageIndex + 1) count source
         applyEffectsForDevelopments fuel' res.1 res.2)
  | .MODIFY_DEV_DRAW_NEXT_ROUND =>
    let delta := readParam effect.params "delta"
    { state with
      roundModifiers := { state.roundModifiers with
        devDrawDeltaNext := state.roundModifiers.devDrawDeltaNext + delta }
      log := state.log ++ [source.title ++ " will " ++
        (if delta ≥ 0 then "increase" else "decrease") ++
        " next round\'s development draw by " ++ toString delta.natAbs ++ "."] }
  | .MODIFY_POLICY_DRAW_NEXT_ROUND =>
    let delta := readParam effect.params "delta"
    { state with
      roundModifiers := { state.roundModifiers with
        policyDrawDeltaNext := state.roundModifiers.policyDrawDeltaNext + delta }
      log := state.log ++ [source.title ++ " will " ++
        (if delta ≥ 0 then "increase" else "decrease") ++
        " next round\'s policy draw by " ++ toString delta.natAbs ++ "."] }
  | .MODIFY_MAX_POLICIES_THIS_ROUND =>
    let delta := readParam effect.params "delta"
    { state with
      roundModifiers := { state.roundModifiers with
        maxPoliciesDeltaThisRound :=
          state.roundModifiers.maxPoliciesDeltaThisRound + delta }
      log := state.log ++ [source.title ++ " changes max policies this round by " ++
        (if delta ≥ 0 then "+" else "") ++ toString delta ++ "."] }

end

/-- Fuel that always suffices: one more than the total card count of the
per-stage deck, which bounds the nesting depth of draw effects. -/
def effectFuel (state : GameState) : Nat :=
  ((state.developmentsByStage.map (fun kv => kv.2.length)).sum) + 1

end Extended

namespace Extended

/-- Embedding of `gameReducer` from `src/unnamed/part_002` (the extended
reducer). -/
def gameReducer (state : GameState) (action : Action) : GameState :=
  match action with
  | .INIT_DECK manifest policies developmentsByStage settings =>
    let snapshot := createSnapshot state
    let policyDeck := policies.map (fun policy => policy.id)
    let deckOrder := ((developmentsByStage.map (fun kv => kv.2)).flatten).map
      (fun dev => dev.id)
    { state with
      manifest := some manifest
      policies := policies
      developmentsByStage := developmentsByStage
      policyDeck := policyDeck
      deckOrder := deckOrder
      settings := settings
      roundModifiers := defaultRoundModifiers
      triggeredDevEffects := []
      history := state.history ++ [snapshot]
      future := [] }
  | .DEAL_STAGE =>
    let snapshot := createSnapshot state
    let currentStageCards := lookupStage state.developmentsByStage state.stageIndex
    let res := dealDevelopments currentStageCards
      state.settings.devFaceupStart state.settings.devFacedownStart
    let nextState : GameState :=
      { state with
        faceUp := res.faceUp
        faceDown := res.faceDown
        dormant := currentStageCards.filter
          (fun card => card.activation.type == ActivationType.conditional)
        round := 1
        roundModifiers := defaultRoundModifiers
        history := state.history ++ [snapshot]
        future := []
        log := state.log ++
          ["Dealt stage " ++ toString state.stageIndex ++ " developments."] }
    applyEffectsForDevelopments (effectFuel nextState) nextState res.faceUp
  | .DRAW_ROUND =>
    let snapshot := createSnapshot state
    let currentStageCards := lookupStage state.developmentsByStage state.stageIndex
    let remaining := currentStageCards.filter (fun card =>
      !(state.faceUp.any (fun up => up.id == card.id)) &&
      !(state.faceDown.any (fun down => down.id == card.id)))
    let faceUpCount :=
      max 0 (state.settings.devFaceupPerRound + state.roundModifiers.devDrawDeltaNext)
    let res := dealDevelopments remaining faceUpCount state.settings.devFacedownPerRound
    let policyDrawCount :=
      max 0 (state.settings.policyDrawPerRound + state.roundModifiers.policyDrawDeltaNext)
    let dp := drawPolicies state.policies state.policyDeck policyDrawCount
    let nextState : GameState :=
      { state with
        faceUp := state.faceUp ++ res.faceUp
        faceDown := state.faceDown ++ res.faceDown
        policyDeck := dp.remainingPolicies
        hand := state.hand ++ dp.drawnPolicies
        round := state.round + 1
        roundModifiers := defaultRoundModifiers
        history := state.history ++ [snapshot]
        future := []
        log := state.log ++ ["Round " ++ toString (state.round + 1) ++ " draw."] }
    applyEffectsForDevelopments (effectFuel nextState) nextState res.faceUp
  | .DEAL_DEVELOPMENTS stageIndexRaw faceUpCountRaw faceDownCountRaw =>
    let snapshot := createSnapshot state
    let stageIndex := max 0 stageIndexRaw
    let stageCards := lookupStage state.developmentsByStage stageIndex
    let faceUpCount := max 0 faceUpCountRaw
    let faceDownCount := max 0 faceDownCountRaw
    let res := dealDevelopments stageCards faceUpCount faceDownCount
    let nextState : GameState :=
      { state with
        faceUp := state.faceUp ++ res.faceUp
        faceDown := state.faceDown ++ res.faceDown
        dormant := stageCards.filter
          (fun card => card.activation.type == ActivationType.conditional)
        round := state.round + 1
        history := state.history ++ [snapshot]
        future := []
        log := state.log ++ ["Dealt " ++
          toString (res.faceUp.length + res.faceDown.length) ++
          " developments from stage " ++ toString stageIndex ++ "."] }
    applyEffectsForDevelopments (effectFuel nextState) nextState res.faceUp
  | .DRAW_POLICIES countRaw =>
    let snapshot := createSnapshot state
    let count := max 0 countRaw
    if count = 0 then state
    else
      let dp := drawPolicies state.policies state.policyDeck count
      { state with
        policyDeck := dp.remainingPolicies
        hand := state.hand ++ dp.drawnPolicies
        round := state.round + 1
        history := state.history ++ [snapshot]
        future := []
        log := state.log ++ ["Drew " ++ toString dp.drawnPolicies.length ++
          " policy card(s)."] }
  | .PLAY_POLICY policyId =>
    let snapshot := createSnapshot state
    match state.hand.find? (fun item => item.id == policyId) with
    | none => state
    | some policy =>
      let maxPolicies := max 0 (state.settings.maxPoliciesPerRound +
        state.roundModifiers.maxPoliciesDeltaThisRound)
      if (state.implemented.length : Int) ≥ maxPolicies then state
      else
        { state with
          implemented := state.implemented ++ [policy]
          hand := state.hand.filter (fun item => item.id != policyId)
          attachments := setAttach state.attachments policy.id
            ((lookupAttach state.attachments policy.id).getD [])
          history := state.history ++ [snapshot]
          future := []
          log := state.log ++ ["Implemented " ++ policy.title ++ "."] }
  | .ATTACH_DEV policyId devId =>
    let snapshot := createSnapshot state
    match findDev state devId with
    | none => state
    | some dev =>
      let attachments := setAttach state.attachments policyId
        ((lookupAttach state.attachments policyId).getD [] ++ [dev])
      let nextState : GameState :=
        { state with
          faceUp := state.faceUp.filter (fun item => item.id != dev.id)
          faceDown := state.faceDown.filter (fun item => item.id != dev.id)
          dormant := state.dormant.filter (fun item => item.id != dev.id)
          attachments := attachments
          history := state.history ++ [snapshot]
          future := []
          log := state.log ++ ["Attached " ++ dev.title ++ " under policy."] }
      applyEffectsForDevelopments (effectFuel nextState) nextState [dev]
  | .AUTO_ATTACH =>
    let snapshot := createSnapshot state
    let implementedTags := (state.implemented.map (fun policy => policy.tags)).flatten
    let autoTargets := state.faceUp.filter (fun dev =>
      dev.activation.type == ActivationType.conditional &&
      dev.activation.required_policy_tags.all (fun tag => implementedTags.contains tag))
    let attachments := autoTargets.foldl (fun acc dev =>
      match state.implemented.find? (fun p =>
          p.tags.any (fun tag => dev.activation.required_policy_tags.contains tag)) with
      | none => acc
      | some policy =>
        setAttach acc policy.id ((lookupAttach acc policy.id).getD [] ++ [dev]))
      state.attachments
    let nextState : GameState :=
      { state with
        faceUp := state.faceUp.filter (fun dev =>
          !(autoTargets.any (fun target => target.id == dev.id)))
        attachments := attachments
        history := state.history ++ [snapshot]
        future := []
        log := state.log ++
          ["Auto-attached " ++ toString autoTargets.length ++ " developments."] }
    applyEffectsForDevelopments (effectFuel nextState) nextState autoTargets
  | .DISCARD_CARD kind cardId =>
    let snapshot := createSnapshot state
    match kind with
    | .policy =>
      (match state.policies.find? (fun item => item.id == cardId) with
       | none => state
       | some policy =>
         let discardedPolicies := state.discardedPolicies ++ [policy]
         let attached := (lookupAttach state.attachments cardId).getD []
         let attachments := state.attachments.filter (fun kv => kv.1 != cardId)
         let remainingHand := state.hand.filter (fun item => item.id != cardId)
         let remainingImplemented := state.implemented.filter
           (fun item => item.id != cardId)
         { state with
           hand := remainingHand
           implemented := remainingImplemented
           attachments := attachments
           discardedPolicies := discardedPolicies
           discardedDevelopments := state.discardedDevelopments ++ attached
           selectedPolicyId :=
             if state.selectedPolicyId == some cardId then none
             else state.selectedPolicyId
           history := state.history ++ [snapshot]
           future := []
           log := state.log ++ ["Discarded policy " ++ policy.title ++ "."] })
    | .development =>
      (match findDev state cardId with
       | none => state
       | some dev =>
         let removal := removeDevFromAttachments state.attachments cardId
         { state with
           faceUp := state.faceUp.filter (fun item => item.id != cardId)
           faceDown := state.faceDown.filter (fun item => item.id != cardId)
           dormant := state.dormant.filter (fun item => item.id != cardId)
           attachments := removal.1
           discardedDevelopments := state.discardedDevelopments ++
             discardDedup (dev :: removal.2)
           selectedDevId :=
             if state.selectedDevId == some cardId then none else state.selectedDevId
           history := state.history ++ [snapshot]
           future := []
           log := state.log ++ ["Discarded development " ++ dev.title ++ "."] })
  | .SELECT_DEV devId =>
    { state with selectedDevId := devId }
  | .SELECT_POLICY policyId =>
    { state with selectedPolicyId := policyId }
  | .ADVANCE_STAGE =>
    let snapshot := createSnapshot state
    { state with
      stageIndex := min (state.stageIndex + 1)
        ((state.developmentsByStage.length : Int) - 1)
      faceUp := []
      faceDown := []
      dormant := []
      implemented := []
      attachments := []
      discardedDevelopments := []
      discardedPolicies := []
      round := 0
      roundModifiers := defaultRoundModifiers
      history := state.history ++ [snapshot]
      future := []
      log := state.log ++
        ["Advanced to stage " ++ toString (state.stageIndex + 1) ++ "."] }
  | .UNDO =>
    match state.history.getLast? with
    | none => state
    | some previous =>
      previous.toState state.history.dropLast (createSnapshot state :: state.future)
  | .REDO =>
    match state.future with
    | [] => state
    | next :: rest =>
      next.toState (state.history ++ [createSnapshot state]) rest

end Extended

/-- Identifier projection of a development card list. -/
def devIds (cards : List DevelopmentCard) : List String :=
  cards.map (fun card => card.id)

/-- Identifier projection of a policy card list. -/
def policyIds (cards : List PolicyCard) : List String :=
  cards.map (fun card => card.id)

/-- Every per-stage card list of the deck carries pairwise distinct ids. -/
def StagesNodup (stages : StageMap) : Prop :=
  ∀ kv ∈ stages, (devIds kv.2).Nodup

instance (stages : StageMap) : Decidable (StagesNodup stages) :=
  List.decidableBAll _ stages

namespace Basic

/-- Pile invariant of a snapshot: per-stage deck lists, the face-up pile, the
face-down pile and the dormant pile all have pairwise distinct ids, and no id
is both face up and face down. -/
def SnapInv (p : Snapshot) : Prop :=
  StagesNodup p.developmentsByStage ∧
  (devIds p.faceUp).Nodup ∧
  (devIds p.faceDown).Nodup ∧
  (devIds p.dormant).Nodup ∧
  ∀ i ∈ devIds p.faceUp, i ∉ devIds p.faceDown

instance (p : Snapshot) : Decidable (SnapInv p) := by
  unfold SnapInv
  infer_instance

/-- State invariant: the pile invariant holds of the live fields and of every
undo and redo snapshot. -/
def StateInv (s : GameState) : Prop :=
  SnapInv (createSnapshot s) ∧
  (∀ p ∈ s.history, SnapInv p) ∧
  (∀ p ∈ s.future, SnapInv p)

/-- Side condition on actions: an `INIT_DECK` payload must list each stage's
developments without duplicate ids (the generator writes decks this way; the
reducer itself never introduces a duplicate into the per-stage deck). -/
def ActionOK : Action → Prop
  | .INIT_DECK _ _ stages _ => StagesNodup stages
  | _ => True

instance (a : Action) : Decidable (ActionOK a) := by
  cases a <;> (unfold ActionOK; infer_instance)

/-- Reachability: every state produced from `createInitialState` by a
sequence of reducer actions. -/
inductive Reachable : GameState → Prop where
  | init (settings : GameSettings) : Reachable (createInitialState settings)
  | step (s : GameState) (a : Action) : Reachable s → Reachable (gameReducer s a)

/-- Reachability through well-formed deck loads: as `Reachable`, with every
`INIT_DECK` payload satisfying `ActionOK`. -/
inductive ReachableOK : GameState → Prop where
  | init (settings : GameSettings) : ReachableOK (createInitialState settings)
  | step (s : GameState) (a : Action) : ReachableOK s → ActionOK a →
      ReachableOK (gameReducer s a)

end Basic

namespace Extended

/-- Side condition on extended-reducer actions: an `INIT_DECK` payload must
list each stage's developments without duplicate ids (same condition as for
the basic reducer). -/
def ActionOK : Action → Prop
  | .INIT_DECK _ _ stages _ => StagesNodup stages
  | _ => True

instance (a : Action) : Decidable (ActionOK a) := by
  cases a <;> (unfold ActionOK; infer_instance)

/-- Reachability for the extended reducer through well-formed deck loads:
every state produced from `createInitialState` by extended-reducer actions
whose `INIT_DECK` payloads satisfy `ActionOK`. -/
inductive ReachableOK : GameState → Prop where
  | init (settings : GameSettings) : ReachableOK (createInitialState settings)
  | step (s : GameState) (a : Action) : ReachableOK s → ActionOK a →
      ReachableOK (gameReducer s a)

end Extended

/-- Concrete policy card builder for test states: id, title, tags as given,
remaining fields inert. -/
def mkPolicy (id title : String) (tags : List String) : PolicyCard :=
  { id := id
    title := title
    short_description := ""
    description := ""
    category := ""
    cost := { budget_level := 0, implementation_complexity := 0, notes := "" }
    timeline := { time_to_launch := "", time_to_impact := "" }
    impact_score := 0
    tags := tags
    addresses_tags := []
    side_effect_tags := []
    prerequisites_policy_tags := []
    synergy_policy_tags := []
    role_restrictions := []
    art_prompt := ""
    flavor_quote := none }

/-- Concrete development card builder for test states: id, title and
activation as given, no effects, remaining fields inert. -/
def mkDev (id title : String) (act : Activation) : DevelopmentCard :=
  { id := id
    stage := 0
    title := title
    short_description := ""
    description := ""
    valence := Valence.mixed
    arrows_up := 0
    arrows_down := 0
    severity := 0
    tags := []
    thread_id := ""
    supersedes := none
    activation := act
    effects := []
    art_prompt := ""
    suggested_visibility := none }

/-- Concrete game settings used by the test states. -/
def testSettings : GameSettings :=
  { players := 1
    handSize := 5
    devFaceupStart := 1
    devFacedownStart := 0
    devFaceupPerRound := 0
    devFacedownPerRound := 0
    policyDrawPerRound := 1
    maxPoliciesPerRound := 1 }

/-- Conditional development card `x` requiring policy tag `t`. -/
def xDev : DevelopmentCard :=
  mkDev "x" "X" { type := ActivationType.conditional, required_policy_tags := ["t"] }

/-- Policy card `p1` carrying tag `t`. -/
def p1Policy : PolicyCard := mkPolicy "p1" "P1" ["t"]

/-- Immediate development card `y`. -/
def yDev : DevelopmentCard :=
  mkDev "y" "Y" { type := ActivationType.immediate, required_policy_tags := [] }

/-- Reachable counterexample state: after loading a deck whose stage 0 holds
the single conditional card `x` and dealing the stage, `x` is both face up
and dormant. -/
def c1State : Basic.GameState :=
  Basic.gameReducer
    (Basic.gameReducer (Basic.createInitialState testSettings)
      (Basic.Action.INIT_DECK [] [p1Policy] [(0, [xDev])] testSettings))
    Basic.Action.DEAL_STAGE

/-- Reachable counterexample state: continuing from `c1State` with a round
draw, playing policy `p1`, auto-attaching `x` (which stays dormant) and then
attaching `x` by hand duplicates `x` inside the `p1` attachment bucket. -/
def c4State : Basic.GameState :=
  Basic.gameReducer
    (Basic.gameReducer
      (Basic.gameReducer
        (Basic.gameReducer c1State Basic.Action.DRAW_ROUND)
        (Basic.Action.PLAY_POLICY "p1"))
      Basic.Action.AUTO_ATTACH)
    (Basic.Action.ATTACH_DEV "p1" "x")

/-- Test state with a face-up card and a card in hand, used for the
missing-identifier no-op claims. -/
def c2State : Basic.GameState :=
  { Basic.createInitialState testSettings with faceUp := [xDev], hand := [p1Policy] }

/-- Extended-reducer test state with a face-up card, a catalog policy and an
attachment bucket, used for the `DISCARD_CARD` no-op claims. -/
def c2xState : Extended.GameState :=
  { Extended.createInitialState testSettings with
      faceUp := [xDev], policies := [p1Policy], attachments := [("p1", [xDev])] }

/-- Test state whose `p1` attachment bucket is non-empty before `p1` is ever
played, used against the "initially empty bucket" reading of PLAY_POLICY. -/
def c8State : Basic.GameState :=
  { Basic.createInitialState testSettings with
      hand := [p1Policy], attachments := [("p1", [xDev])] }

/-- Concrete state with one undo snapshot and one redo snapshot, used to
witness the undo/redo round trips. -/
def c7State : Basic.GameState :=
  { c2State with
      history := [Basic.createSnapshot (Basic.createInitialState testSettings)]
      future := [Basic.createSnapshot c8State] }

/-- State at the policy cap: one policy is already implemented and
`maxPoliciesPerRound` is 1. -/
def c8CapState : Basic.GameState :=
  { c2State with implemented := [mkPolicy "q" "Q" []] }

/-- Extended-reducer state right after loading the one-card deck. -/
def c1xMid : Extended.GameState :=
  Extended.gameReducer (Extended.createInitialState testSettings)
    (Extended.Action.INIT_DECK [] [p1Policy] [(0, [xDev])] testSettings)

/-- Extended-reducer state reached from a duplicate-free deck by dealing
twice with `DEAL_DEVELOPMENTS`: first one card face up, then one card face
down.  The second deal does not filter out already-dealt cards, so card `x`
ends up both face up and face down. -/
def c1xState : Extended.GameState :=
  Extended.gameReducer
    (Extended.gameReducer c1xMid (Extended.Action.DEAL_DEVELOPMENTS 0 1 0))
    (Extended.Action.DEAL_DEVELOPMENTS 0 0 1)

/-- Extended-reducer test state with `p1` in hand and `x` face up. -/
def c5xState : Extended.GameState :=
  { Extended.createInitialState testSettings with
      hand := [p1Policy], faceUp := [xDev] }

/-- Extended-reducer state at the effective policy cap: cap 1, zero round
modifier, one policy already implemented, `p1` in hand. -/
def c8xCapState : Extended.GameState :=
  { Extended.createInitialState testSettings with
      hand := [p1Policy], implemented := [mkPolicy "q" "Q" []] }

theorem devIds_append (l₁ l₂ : List DevelopmentCard) :
    devIds (l₁ ++ l₂) = devIds l₁ ++ devIds l₂ :=
  List.map_append _ _ _

theorem devIds_take (l : List DevelopmentCard) (n : Nat) :
    devIds (l.take n) = (devIds l).take n :=
  List.map_take _ _ _

theorem devIds_drop (l : List DevelopmentCard) (n : Nat) :
    devIds (l.drop n) = (devIds l).drop n :=
  List.map_drop _ _ _

theorem devIds_sublist {l₁ l₂ : List DevelopmentCard} (h : l₁.Sublist l₂) :
    (devIds l₁).Sublist (devIds l₂) :=
  h.map _

theorem nodup_devIds_of_sublist {l₁ l₂ : List DevelopmentCard} (h : l₁.Sublist l₂)
    (h₂ : (devIds l₂).Nodup) : (devIds l₁).Nodup :=
  h₂.sublist (devIds_sublist h)

theorem nodup_devIds_filter {l : List DevelopmentCard} (p : DevelopmentCard → Bool)
    (h : (devIds l).Nodup) : (devIds (l.filter p)).Nodup :=
  nodup_devIds_of_sublist (List.filter_sublist l) h

theorem mem_devIds_of_sublist {l₁ l₂ : List DevelopmentCard} {i : String}
    (h : l₁.Sublist l₂) (hi : i ∈ devIds l₁) : i ∈ devIds l₂ :=
  (devIds_sublist h).subset hi

theorem nodup_devIds_take {l : List DevelopmentCard} (n : Nat)
    (h : (devIds l).Nodup) : (devIds (l.take n)).Nodup :=
  nodup_devIds_of_sublist (List.take_sublist n l) h

theorem nodup_devIds_take_drop {l : List DevelopmentCard} (n m : Nat)
    (h : (devIds l).Nodup) : (devIds ((l.drop n).take m)).Nodup :=
  nodup_devIds_of_sublist ((List.take_sublist m _).trans (List.drop_sublist n l)) h

theorem take_drop_devIds_disjoint {l : List DevelopmentCard} (h : (devIds l).Nodup)
    (n m : Nat) : ∀ i ∈ devIds (l.take n), i ∉ devIds ((l.drop n).take m) := by
  intro i h₁ h₂
  have h₁' : i ∈ (devIds l).take n := by rw [← devIds_take]; exact h₁
  have h₂' : i ∈ (devIds l).drop n := by
    have := mem_devIds_of_sublist (List.take_sublist m (l.drop n)) h₂
    rw [devIds_drop] at this
    exact this
  exact (List.disjoint_take_drop h le_rfl) h₁' h₂'

theorem lookupStage_nodup {stages : StageMap} (h : StagesNodup stages) (i : Int) :
    (devIds (lookupStage stages i)).Nodup := by
  unfold lookupStage
  cases hf : stages.find? (fun kv => kv.1 == i) with
  | none => simp [devIds]
  | some kv => simpa using h kv (List.mem_of_find?_eq_some hf)

theorem mem_remaining {stage up down : List DevelopmentCard} {i : String}
    (h : i ∈ devIds (stage.filter (fun card =>
      !(up.any (fun u => u.id == card.id)) &&
      !(down.any (fun d => d.id == card.id))))) :
    i ∉ devIds up ∧ i ∉ devIds down := by
  rcases List.mem_map.mp h with ⟨c, hc, rfl⟩
  have hpred := (List.mem_filter.mp hc).2
  simp only [Bool.and_eq_true, Bool.not_eq_true', List.any_eq_false, beq_iff_eq] at hpred
  constructor
  · intro hmem
    rcases List.mem_map.mp hmem with ⟨u, hu, hid⟩
    exact hpred.1 u hu hid
  · intro hmem
    rcases List.mem_map.mp hmem with ⟨d, hd, hid⟩
    exact hpred.2 d hd hid

namespace Basic

theorem createSnapshot_toState (p : Snapshot) (h f : List Snapshot) :
    createSnapshot (p.toState h f) = p := rfl

theorem stateInv_push {s s' : GameState} (hs : StateInv s)
    (hsnap : SnapInv (createSnapshot s'))
    (hhist : s'.history = s.history ++ [createSnapshot s])
    (hfut : s'.future = []) : StateInv s' := by
  refine ⟨hsnap, ?_, ?_⟩
  · intro p hp
    rw [hhist] at hp
    rcases List.mem_append.mp hp with hp | hp
    · exact hs.2.1 p hp
    · rw [List.mem_singleton] at hp
      subst hp
      exact hs.1
  · intro p hp
    rw [hfut] at hp
    exact absurd hp (List.not_mem_nil p)

theorem stateInv_step (s : GameState) (a : Action) (hs : StateInv s)
    (ha : ActionOK a) : StateInv (gameReducer s a) := by
  obtain ⟨⟨hstages, hup, hdown, hdorm, hdisj⟩, hhist, hfut⟩ := hs
  cases a with
  | INIT_DECK manifest policies stages settings =>
    exact stateInv_push ⟨⟨hstages, hup, hdown, hdorm, hdisj⟩, hhist, hfut⟩
      ⟨ha, hup, hdown, hdorm, hdisj⟩ rfl rfl
  | DEAL_STAGE =>
    have hcs : (devIds (lookupStage s.developmentsByStage s.stageIndex)).Nodup :=
      lookupStage_nodup hstages _
    exact stateInv_push ⟨⟨hstages, hup, hdown, hdorm, hdisj⟩, hhist, hfut⟩
      ⟨hstages, nodup_devIds_take _ hcs, nodup_devIds_take_drop _ _ hcs,
        nodup_devIds_filter _ hcs, take_drop_devIds_disjoint hcs _ _⟩ rfl rfl
  | DRAW_ROUND =>
    have hrem : (devIds ((lookupStage s.developmentsByStage s.stageIndex).filter
        (fun card => !(s.faceUp.any (fun up => up.id == card.id)) &&
          !(s.faceDown.any (fun down => down.id == card.id))))).Nodup :=
      nodup_devIds_filter _ (lookupStage_nodup hstages _)
    have h1 : (devIds (s.faceUp ++
        ((lookupStage s.developmentsByStage s.stageIndex).filter
          (fun card => !(s.faceUp.any (fun up => up.id == card.id)) &&
            !(s.faceDown.any (fun down => down.id == card.id)))).take
          s.settings.devFaceupPerRound.toNat)).Nodup := by
      rw [devIds_append, List.nodup_append]
      exact ⟨hup, nodup_devIds_take _ hrem, fun i hi hi' =>
        (mem_remaining (mem_devIds_of_sublist (List.take_sublist _ _) hi')).1 hi⟩
    have h2 : (devIds (s.faceDown ++
        (((lookupStage s.developmentsByStage s.stageIndex).filter
          (fun card => !(s.faceUp.any (fun up => up.id == card.id)) &&
            !(s.faceDown.any (fun down => down.id == card.id)))).drop
          s.settings.devFaceupPerRound.toNat).take
          s.settings.devFacedownPerRound.toNat)).Nodup := by
      rw [devIds_append, List.nodup_append]
      exact ⟨hdown, nodup_devIds_take_drop _ _ hrem, fun i hi hi' =>
        (mem_remaining (mem_devIds_of_sublist
          ((List.take_sublist _ _).trans (List.drop_sublist _ _)) hi')).2 hi⟩
    have h3 : ∀ i ∈ devIds (s.faceUp ++
        ((lookupStage s.developmentsByStage s.stageIndex).filter
          (fun card => !(s.faceUp.any (fun up => up.id == card.id)) &&
            !(s.faceDown.any (fun down => down.id == card.id)))).take
          s.settings.devFaceupPerRound.toNat),
        i ∉ devIds (s.faceDown ++
        (((lookupStage s.developmentsByStage s.stageIndex).filter
          (fun card => !(s.faceUp.any (fun up => up.id == card.id)) &&
            !(s.faceDown.any (fun down => down.id == card.id)))).drop
          s.settings.devFaceupPerRound.toNat).take
          s.settings.devFacedownPerRound.toNat) := by
      intro i hi hi'
      rw [devIds_append, List.mem_append] at hi hi'
      rcases hi with hi | hi
      · rcases hi' with hi' | hi'
        · exact hdisj i hi hi'
        · exact (mem_remaining (mem_devIds_of_sublist
            ((List.take_sublist _ _).trans (List.drop_sublist _ _)) hi')).1 hi
      · rcases hi' with hi' | hi'
        · exact (mem_remaining (mem_devIds_of_sublist (List.take_sublist _ _) hi)).2 hi'
        · exact take_drop_devIds_disjoint hrem _ _ i hi hi'
    exact stateInv_push ⟨⟨hstages, hup, hdown, hdorm, hdisj⟩, hhist, hfut⟩
      ⟨hstages, h1, h2, hdorm, h3⟩ rfl rfl
  | PLAY_POLICY policyId =>
    cases hfind : s.hand.find? (fun item => item.id == policyId) with
    | none =>
      have hred : gameReducer s (Action.PLAY_POLICY policyId) = s := by
        simp only [gameReducer, hfind]
      rw [hred]
      exact ⟨⟨hstages, hup, hdown, hdorm, hdisj⟩, hhist, hfut⟩
    | some policy =>
      by_cases hcap : (s.implemented.length : Int) ≥ s.settings.maxPoliciesPerRound
      · have hred : gameReducer s (Action.PLAY_POLICY policyId) = s := by
          simp only [gameReducer, hfind, if_pos hcap]
        rw [hred]
        exact ⟨⟨hstages, hup, hdown, hdorm, hdisj⟩, hhist, hfut⟩
      · have hred : gameReducer s (Action.PLAY_POLICY policyId) =
            { s with
              implemented := s.implemented ++ [policy]
              hand := s.hand.filter (fun item => item.id != policyId)
              attachments := setAttach s.attachments policy.id
                ((lookupAttach s.attachments policy.id).getD [])
              history := s.history ++ [createSnapshot s]
              future := []
              log := s.log ++ ["Implemented " ++ policy.title ++ "."] } := by
          simp only [gameReducer, hfind, if_neg hcap]
        rw [hred]
        exact stateInv_push ⟨⟨hstages, hup, hdown, hdorm, hdisj⟩, hhist, hfut⟩
          ⟨hstages, hup, hdown, hdorm, hdisj⟩ rfl rfl
  | ATTACH_DEV policyId devId =>
    cases hfind : findDev s devId with
    | none =>
      have hred : gameReducer s (Action.ATTACH_DEV policyId devId) = s := by
        simp only [gameReducer, hfind]
      rw [hred]
      exact ⟨⟨hstages, hup, hdown, hdorm, hdisj⟩, hhist, hfut⟩
    | some dev =>
      have hred : gameReducer s (Action.ATTACH_DEV policyId devId) =
          { s with
            faceUp := s.faceUp.filter (fun item => item.id != dev.id)
            faceDown := s.faceDown.filter (fun item => item.id != dev.id)
            dormant := s.dormant.filter (fun item => item.id != dev.id)
            attachments := setAttach s.attachments policyId
              ((lookupAttach s.attachments policyId).getD [] ++ [dev])
            history := s.history ++ [createSnapshot s]
            future := []
            log := s.log ++ ["Attached " ++ dev.title ++ " under policy."] } := by
        simp only [gameReducer, hfind]
      rw [hred]
      exact stateInv_push ⟨⟨hstages, hup, hdown, hdorm, hdisj⟩, hhist, hfut⟩
        ⟨hstages, nodup_devIds_filter _ hup, nodup_devIds_filter _ hdown,
          nodup_devIds_filter _ hdorm,
          fun i hi hi' => hdisj i (mem_devIds_of_sublist (List.filter_sublist _) hi)
            (mem_devIds_of_sublist (List.filter_sublist _) hi')⟩ rfl rfl
  | AUTO_ATTACH =>
    exact stateInv_push ⟨⟨hstages, hup, hdown, hdorm, hdisj⟩, hhist, hfut⟩
      ⟨hstages, nodup_devIds_filter _ hup, hdown, hdorm,
        fun i hi hi' => hdisj i
          (mem_devIds_of_sublist (List.filter_sublist _) hi) hi'⟩ rfl rfl
  | SELECT_DEV devId =>
    exact ⟨⟨hstages, hup, hdown, hdorm, hdisj⟩, hhist, hfut⟩
  | SELECT_POLICY policyId =>
    exact ⟨⟨hstages, hup, hdown, hdorm, hdisj⟩, hhist, hfut⟩
  | ADVANCE_STAGE =>
    refine stateInv_push ⟨⟨hstages, hup, hdown, hdorm, hdisj⟩, hhist, hfut⟩
      ⟨hstages, ?_, ?_, ?_, ?_⟩ rfl rfl
    · exact List.nodup_nil
    · exact List.nodup_nil
    · exact List.nodup_nil
    · intro i hi
      exact absurd hi (List.not_mem_nil i)
  | UNDO =>
    rcases List.eq_nil_or_concat s.history with hh | ⟨l, p, hh⟩
    · have hred : gameReducer s Action.UNDO = s := by
        simp only [gameReducer, hh, List.getLast?_nil]
      rw [hred]
      exact ⟨⟨hstages, hup, hdown, hdorm, hdisj⟩, hhist, hfut⟩
    · have hred : gameReducer s Action.UNDO =
          p.toState (s.history.dropLast) (createSnapshot s :: s.future) := by
        simp only [gameReducer, hh, List.concat_eq_append, List.getLast?_concat]
      rw [hred]
      refine ⟨?_, ?_, ?_⟩
      · rw [createSnapshot_toState]
        refine hhist p ?_
        rw [hh, List.concat_eq_append]
        exact List.mem_append_right _ (List.mem_singleton.mpr rfl)
      · intro q hq
        refine hhist q ?_
        exact (List.dropLast_sublist s.history).subset hq
      · intro q hq
        rcases List.mem_cons.mp hq with hq | hq
        · subst hq
          exact ⟨hstages, hup, hdown, hdorm, hdisj⟩
        · exact hfut q hq
  | REDO =>
    cases hf : s.future with
    | nil =>
      have hred : gameReducer s Action.REDO = s := by
        simp only [gameReducer, hf]
      rw [hred]
      exact ⟨⟨hstages, hup, hdown, hdorm, hdisj⟩, hhist, hfut⟩
    | cons next rest =>
      have hred : gameReducer s Action.REDO =
          next.toState (s.history ++ [createSnapshot s]) rest := by
        simp only [gameReducer, hf]
      rw [hred]
      refine ⟨?_, ?_, ?_⟩
      · rw [createSnapshot_toState]
        exact hfut next (hf ▸ List.mem_cons_self next rest)
      · intro q hq
        rcases List.mem_append.mp hq with hq | hq
        · exact hhist q hq
        · rw [List.mem_singleton] at hq
          subst hq
          exact ⟨hstages, hup, hdown, hdorm, hdisj⟩
      · intro q hq
        exact hfut q (hf ▸ List.mem_cons_of_mem next hq)

theorem reachableOK_stateInv {s : GameState} (h : ReachableOK s) : StateInv s := by
  induction h with
  | init st =>
    refine ⟨⟨?_, ?_, ?_, ?_, ?_⟩, ?_, ?_⟩ <;>
      simp [createInitialState, createSnapshot, StagesNodup, devIds]
  | step s a hr ha ih =>
    exact stateInv_step s a ih ha

end Basic

theorem lookupAttach_setAttach (atts : AttachMap) (k : String)
    (v : List DevelopmentCard) : lookupAttach (setAttach atts k v) k = some v := by
  unfold lookupAttach setAttach
  by_cases h : atts.any (fun kv => kv.1 == k)
  · rw [if_pos h, List.find?_map]
    have hcomp : ((fun kv : String × List DevelopmentCard => kv.1 == k) ∘
        fun kv => if kv.1 == k then (k, v) else kv) =
        fun kv => kv.1 == k := by
      funext kv
      simp only [Function.comp_apply]
      by_cases hk : kv.1 = k
      · simp [hk]
      · simp [hk]
    rw [hcomp]
    obtain ⟨kv₀, hkv₀, hp⟩ := List.any_eq_true.mp h
    have hsome : (atts.find? (fun kv => kv.1 == k)).isSome :=
      List.find?_isSome.mpr ⟨kv₀, hkv₀, hp⟩
    obtain ⟨kv₁, hfind₁⟩ := Option.isSome_iff_exists.mp hsome
    have hk := List.find?_some hfind₁
    rw [hfind₁]
    simp [beq_iff_eq.mp hk]
  · rw [if_neg h, List.find?_append]
    have hnone : atts.find? (fun kv => kv.1 == k) = none := by
      rw [List.find?_eq_none]
      intro x hx hpx
      exact h (List.any_eq_true.mpr ⟨x, hx, hpx⟩)
    rw [hnone]
    simp

theorem find?_dev_id_eq_none {l : List DevelopmentCard} {i : String}
    (h : i ∉ devIds l) : l.find? (fun item => item.id == i) = none := by
  rw [List.find?_eq_none]
  intro x hx hpx
  exact h (List.mem_map.mpr ⟨x, hx, by simpa using hpx⟩)

theorem find?_policy_id_eq_none {l : List PolicyCard} {i : String}
    (h : i ∉ policyIds l) : l.find? (fun item => item.id == i) = none := by
  rw [List.find?_eq_none]
  intro x hx hpx
  exact h (List.mem_map.mpr ⟨x, hx, by simpa using hpx⟩)

theorem findDev_eq_none {s : Basic.GameState} {i : String}
    (h1 : i ∉ devIds s.faceUp) (h2 : i ∉ devIds s.faceDown)
    (h3 : i ∉ devIds s.dormant) : Basic.findDev s i = none := by
  unfold Basic.findDev
  rw [find?_dev_id_eq_none h1, find?_dev_id_eq_none h2, find?_dev_id_eq_none h3]
  rfl

theorem findDevX_eq_none {s : Extended.GameState} {i : String}
    (h1 : i ∉ devIds s.faceUp) (h2 : i ∉ devIds s.faceDown)
    (h3 : i ∉ devIds s.dormant)
    (h4 : i ∉ devIds ((s.attachments.map (fun kv => kv.2)).flatten)) :
    Extended.findDev s i = none := by
  unfold Extended.findDev
  rw [find?_dev_id_eq_none h1, find?_dev_id_eq_none h2, find?_dev_id_eq_none h3,
    find?_dev_id_eq_none h4]
  rfl

theorem drawDev_stacks (s : Extended.GameState) (i c : Int)
    (src : DevelopmentCard) :
    (Extended.drawDevelopmentsFromStage s i c src).1.future = s.future ∧
    (Extended.drawDevelopmentsFromStage s i c src).1.history = s.history := by
  constructor <;> (unfold Extended.drawDevelopmentsFromStage; dsimp only; split <;> rfl)

theorem ael_stacks_of_ae (fuel : Nat)
    (hAE : ∀ (s : Extended.GameState) (e : Effect) (src : DevelopmentCard),
      (Extended.applyEffect fuel s e src).future = s.future ∧
      (Extended.applyEffect fuel s e src).history = s.history) :
    ∀ (effs : List Effect) (s : Extended.GameState) (src : DevelopmentCard),
      (Extended.applyEffectList fuel s effs src).future = s.future ∧
      (Extended.applyEffectList fuel s effs src).history = s.history := by
  intro effs
  induction effs with
  | nil =>
    intro s src
    constructor <;> simp [Extended.applyEffectList]
  | cons e rest ihe =>
    intro s src
    have hstep : Extended.applyEffectList fuel s (e :: rest) src =
        Extended.applyEffectList fuel (Extended.applyEffect fuel s e src) rest src := by
      simp [Extended.applyEffectList]
    rw [hstep]
    exact ⟨(ihe _ _).1.trans (hAE s e src).1, (ihe _ _).2.trans (hAE s e src).2⟩

theorem aefd_stacks_of_ae (fuel : Nat)
    (hAE : ∀ (s : Extended.GameState) (e : Effect) (src : DevelopmentCard),
      (Extended.applyEffect fuel s e src).future = s.future ∧
      (Extended.applyEffect fuel s e src).history = s.history) :
    ∀ (devs : List DevelopmentCard) (s : Extended.GameState),
      (Extended.applyEffectsForDevelopments fuel s devs).future = s.future ∧
      (Extended.applyEffectsForDevelopments fuel s devs).history = s.history := by
  intro devs
  induction devs with
  | nil =>
    intro s
    constructor <;> simp [Extended.applyEffectsForDevelopments]
  | cons dev rest ihd =>
    intro s
    have h1 : (if s.triggeredDevEffects.contains dev.id then s
        else if dev.effects.isEmpty then s
        else { Extended.applyEffectList fuel s dev.effects dev with
          triggeredDevEffects :=
            (Extended.applyEffectList fuel s dev.effects dev).triggeredDevEffects ++
              [dev.id] }).future = s.future ∧
        (if s.triggeredDevEffects.contains dev.id then s
        else if dev.effects.isEmpty then s
        else { Extended.applyEffectList fuel s dev.effects dev with
          triggeredDevEffects :=
            (Extended.applyEffectList fuel s dev.effects dev).triggeredDevEffects ++
              [dev.id] }).history = s.history := by
      by_cases hc : s.triggeredDevEffects.contains dev.id
      · rw [if_pos hc]
        exact ⟨rfl, rfl⟩
      · rw [if_neg hc]
        by_cases he : dev.effects.isEmpty
        · rw [if_pos he]
          exact ⟨rfl, rfl⟩
        · rw [if_neg he]
          exact ⟨(ael_stacks_of_ae fuel hAE dev.effects s dev).1,
            (ael_stacks_of_ae fuel hAE dev.effects s dev).2⟩
    have hstep : Extended.applyEffectsForDevelopments fuel s (dev :: rest) =
        Extended.applyEffectsForDevelopments fuel
          (if s.triggeredDevEffects.contains dev.id then s
           else if dev.effects.isEmpty then s
           else { Extended.applyEffectList fuel s dev.effects dev with
             triggeredDevEffects :=
               (Extended.applyEffectList fuel s dev.effects dev).triggeredDevEffects ++
                 [dev.id] }) rest := by
      simp [Extended.applyEffectsForDevelopments]
    rw [hstep]
    exact ⟨(ihd _).1.trans h1.1, (ihd _).2.trans h1.2⟩

theorem effects_stacks (fuel : Nat) :
    ∀ (s : Extended.GameState) (e : Effect) (src : DevelopmentCard),
      (Extended.applyEffect fuel s e src).future = s.future ∧
      (Extended.applyEffect fuel s e src).history = s.history := by
  induction fuel with
  | zero =>
    intro s e src
    cases e with
    | mk ty params => cases ty <;> (constructor <;> simp [Extended.applyEffect])
  | succ n ih =>
    intro s e src
    cases e with
    | mk ty params =>
      cases ty
      case DRAW_DEV_NOW =>
        simp only [Extended.applyEffect]
        split
        · exact ⟨rfl, rfl⟩
        · exact ⟨((aefd_stacks_of_ae n ih _ _).1).trans (drawDev_stacks _ _ _ _).1,
            ((aefd_stacks_of_ae n ih _ _).2).trans (drawDev_stacks _ _ _ _).2⟩
      case DRAW_DEV_NEXT_STAGE_NOW =>
        simp only [Extended.applyEffect]
        split
        · exact ⟨rfl, rfl⟩
        · exact ⟨((aefd_stacks_of_ae n ih _ _).1).trans (drawDev_stacks _ _ _ _).1,
            ((aefd_stacks_of_ae n ih _ _).2).trans (drawDev_stacks _ _ _ _).2⟩
      case MODIFY_DEV_DRAW_NEXT_ROUND =>
        constructor <;> simp [Extended.applyEffect]
      case MODIFY_POLICY_DRAW_NEXT_ROUND =>
        constructor <;> simp [Extended.applyEffect]
      case MODIFY_MAX_POLICIES_THIS_ROUND =>
        constructor <;> simp [Extended.applyEffect]

theorem aefd_future (fuel : Nat) (s : Extended.GameState)
    (devs : List DevelopmentCard) :
    (Extended.applyEffectsForDevelopments fuel s devs).future = s.future :=
  (aefd_stacks_of_ae fuel (effects_stacks fuel) devs s).1

theorem aefd_history (fuel : Nat) (s : Extended.GameState)
    (devs : List DevelopmentCard) :
    (Extended.applyEffectsForDevelopments fuel s devs).history = s.history :=
  (aefd_stacks_of_ae fuel (effects_stacks fuel) devs s).2

theorem aefd_effect_free (fuel : Nat) (devs : List DevelopmentCard)
    (h : ∀ d ∈ devs, d.effects = []) :
    ∀ s : Extended.GameState,
      Extended.applyEffectsForDevelopments fuel s devs = s := by
  induction devs with
  | nil =>
    intro s
    simp [Extended.applyEffectsForDevelopments]
  | cons dev rest ih =>
    intro s
    have hd : dev.effects = [] := h dev (List.mem_cons_self dev rest)
    have hstep : Extended.applyEffectsForDevelopments fuel s (dev :: rest) =
        Extended.applyEffectsForDevelopments fuel s rest := by
      simp [Extended.applyEffectsForDevelopments, hd]
    rw [hstep]
    exact ih (fun d hdm => h d (List.mem_cons_of_mem dev hdm)) s

theorem dealDevs_proj (st : Extended.GameState) (i n m : Int)
    (h : ∀ d ∈ (dealDevelopments (lookupStage st.developmentsByStage (max 0 i))
      (max 0 n) (max 0 m)).faceUp, d.effects = []) :
    (Extended.gameReducer st (Extended.Action.DEAL_DEVELOPMENTS i n m)).faceUp =
      st.faceUp ++ (dealDevelopments (lookupStage st.developmentsByStage (max 0 i))
        (max 0 n) (max 0 m)).faceUp ∧
    (Extended.gameReducer st (Extended.Action.DEAL_DEVELOPMENTS i n m)).faceDown =
      st.faceDown ++ (dealDevelopments (lookupStage st.developmentsByStage (max 0 i))
        (max 0 n) (max 0 m)).faceDown ∧
    (Extended.gameReducer st
        (Extended.Action.DEAL_DEVELOPMENTS i n m)).developmentsByStage =
      st.developmentsByStage := by
  simp only [Extended.gameReducer]
  rw [aefd_effect_free _ _ h]
  exact ⟨rfl, rfl, rfl⟩

/-- C1 counterexample: the claimed exclusivity fails on the code.  In the
reachable state `c1State` (initial state, `INIT_DECK`, `DEAL_STAGE`), the
conditional development card `x` is simultaneously in `faceUp` and in
`dormant`, because `DEAL_STAGE` deals the first cards face up and
independently copies every conditional stage card into `dormant`. -/
theorem C1_counterexample :
    Basic.Reachable c1State ∧
    "x" ∈ devIds c1State.faceUp ∧ "x" ∈ devIds c1State.dormant :=
  ⟨Basic.Reachable.step _ Basic.Action.DEAL_STAGE
      (Basic.Reachable.step _ _ (Basic.Reachable.init testSettings)),
    by decide, by decide⟩

/-- C1 (amended): for the basic reducer, in every state reachable from
`createInitialState` through reducer actions whose `INIT_DECK` payloads list
each stage without duplicate ids, no development card id occurs in both the
`faceUp` and the `faceDown` pile — and this is as much of the claimed
exclusivity as survives.  The four-way exclusivity over `faceUp`,
`faceDown`, `dormant` and `attachments` does not hold (`DEAL_STAGE` places
conditional cards in `faceUp` or `faceDown` and `dormant` at once, and an
attached card can be re-dealt face up because `DRAW_ROUND` filters only
against `faceUp` and `faceDown`), and in the extended reducer even
face-up/face-down exclusivity fails: in the reachable state `c1xState`,
built from a duplicate-free deck by two `DEAL_DEVELOPMENTS` actions, card
`x` is simultaneously face up and face down, because `DEAL_DEVELOPMENTS`
appends its deal without filtering already-dealt cards. -/
theorem C1_amended_faceup_facedown_exclusive :
    (∀ s : Basic.GameState, Basic.ReachableOK s →
      ∀ i ∈ devIds s.faceUp, i ∉ devIds s.faceDown) ∧
    (Extended.ReachableOK c1xState ∧
      "x" ∈ devIds c1xState.faceUp ∧ "x" ∈ devIds c1xState.faceDown) := by
  have hp1 := dealDevs_proj c1xMid 0 1 0 (by decide)
  have hp2 := dealDevs_proj
    (Extended.gameReducer c1xMid (Extended.Action.DEAL_DEVELOPMENTS 0 1 0)) 0 0 1
    (by rw [hp1.2.2]; decide)
  refine ⟨fun s h => (Basic.reachableOK_stateInv h).1.2.2.2.2, ?_, ?_, ?_⟩
  · exact Extended.ReachableOK.step _ (Extended.Action.DEAL_DEVELOPMENTS 0 0 1)
      (Extended.ReachableOK.step _ (Extended.Action.DEAL_DEVELOPMENTS 0 1 0)
        (Extended.ReachableOK.step _ _
          (Extended.ReachableOK.init testSettings) (by decide))
        (by decide))
      (by decide)
  · show "x" ∈ devIds (Extended.gameReducer
      (Extended.gameReducer c1xMid (Extended.Action.DEAL_DEVELOPMENTS 0 1 0))
      (Extended.Action.DEAL_DEVELOPMENTS 0 0 1)).faceUp
    rw [hp2.1, hp1.1, hp1.2.2]
    decide
  · show "x" ∈ devIds (Extended.gameReducer
      (Extended.gameReducer c1xMid (Extended.Action.DEAL_DEVELOPMENTS 0 1 0))
      (Extended.Action.DEAL_DEVELOPMENTS 0 0 1)).faceDown
    rw [hp2.2.1, hp1.2.1, hp1.2.2]
    decide

/-- Witness for `C1_amended_faceup_facedown_exclusive` at the concrete
reachable state `c1State`, whose face-up pile holds `x`. -/
theorem C1_amended_witness : "x" ∉ devIds c1State.faceDown :=
  C1_amended_faceup_facedown_exclusive.1 c1State
    (Basic.ReachableOK.step _ Basic.Action.DEAL_STAGE
      (Basic.ReachableOK.step _ _ (Basic.ReachableOK.init testSettings) (by decide))
      (by decide))
    "x" (by decide)

/-- C4 counterexample: pile-id uniqueness fails for per-policy attachment
lists.  In the reachable state `c4State`, `AUTO_ATTACH` attached the
conditional card `x` to policy `p1` but left `x` in `dormant`, from where a
manual `ATTACH_DEV` appended it to the same bucket again: the `p1`
attachment list is `[x, x]`. -/
theorem C4_counterexample :
    Basic.Reachable c4State ∧
    ¬ (devIds ((lookupAttach c4State.attachments "p1").getD [])).Nodup :=
  ⟨Basic.Reachable.step _ (Basic.Action.ATTACH_DEV "p1" "x")
      (Basic.Reachable.step _ Basic.Action.AUTO_ATTACH
        (Basic.Reachable.step _ (Basic.Action.PLAY_POLICY "p1")
          (Basic.Reachable.step _ Basic.Action.DRAW_ROUND
            (Basic.Reachable.step _ Basic.Action.DEAL_STAGE
              (Basic.Reachable.step _ _ (Basic.Reachable.init testSettings)))))),
    by decide⟩

/-- C4 (amended): in every state reachable through reducer actions whose
`INIT_DECK` payloads list each stage without duplicate ids, the `faceUp`,
`faceDown` and `dormant` piles each contain pairwise distinct card ids.
Uniqueness inside per-policy attachment lists fails (see the counterexample),
and hand uniqueness is not invariant either, since a repeated `INIT_DECK`
rebuilds the policy deck while leaving the drawn hand in place. -/
theorem C4_amended_pile_ids_nodup (s : Basic.GameState)
    (h : Basic.ReachableOK s) :
    (devIds s.faceUp).Nodup ∧ (devIds s.faceDown).Nodup ∧
      (devIds s.dormant).Nodup :=
  ⟨(Basic.reachableOK_stateInv h).1.2.1, (Basic.reachableOK_stateInv h).1.2.2.1,
    (Basic.reachableOK_stateInv h).1.2.2.2.1⟩

/-- Witness for `C4_amended_pile_ids_nodup` at the concrete reachable state
`c1State`. -/
theorem C4_amended_witness :
    (devIds c1State.faceUp).Nodup ∧ (devIds c1State.faceDown).Nodup ∧
      (devIds c1State.dormant).Nodup :=
  C4_amended_pile_ids_nodup c1State
    (Basic.ReachableOK.step _ Basic.Action.DEAL_STAGE
      (Basic.ReachableOK.step _ _ (Basic.ReachableOK.init testSettings) (by decide))
      (by decide))

/-- C2 counterexample: `ATTACH_DEV` does not validate its `policyId`.  In the
state `c2State`, the id `ghost` names no attachment bucket and no implemented
policy, yet `ATTACH_DEV {policyId := "ghost", devId := "x"}` is not a no-op:
it attaches the face-up card `x` under the unknown policy id. -/
theorem C2_counterexample :
    lookupAttach c2State.attachments "ghost" = none ∧
    "ghost" ∉ policyIds c2State.implemented ∧
    "ghost" ∉ policyIds c2State.hand ∧
    Basic.gameReducer c2State (Basic.Action.ATTACH_DEV "ghost" "x") ≠ c2State := by
  refine ⟨by decide, by decide, by decide, by decide⟩

/-- C2 (amended): a reducer action carrying a missing card identifier is a
complete no-op — the input state is returned unchanged — for `PLAY_POLICY`
with a `policyId` not in the hand, for `ATTACH_DEV` with a `devId` not in any
development pile (the `policyId` of an `ATTACH_DEV` is not validated at all),
and for `DISCARD_CARD` in the extended reducer whose id names no catalog
policy (kind "policy") resp. no development in a pile or attachment
(kind "development"). -/
theorem C2_amended_missing_id_noop :
    (∀ (s : Basic.GameState) (pid : String), pid ∉ policyIds s.hand →
      Basic.gameReducer s (Basic.Action.PLAY_POLICY pid) = s) ∧
    (∀ (s : Basic.GameState) (pid did : String), did ∉ devIds s.faceUp →
      did ∉ devIds s.faceDown → did ∉ devIds s.dormant →
      Basic.gameReducer s (Basic.Action.ATTACH_DEV pid did) = s) ∧
    (∀ (s : Extended.GameState) (i : String), i ∉ policyIds s.policies →
      Extended.gameReducer s
        (Extended.Action.DISCARD_CARD Extended.CardKind.policy i) = s) ∧
    (∀ (s : Extended.GameState) (i : String), i ∉ devIds s.faceUp →
      i ∉ devIds s.faceDown → i ∉ devIds s.dormant →
      i ∉ devIds ((s.attachments.map (fun kv => kv.2)).flatten) →
      Extended.gameReducer s
        (Extended.Action.DISCARD_CARD Extended.CardKind.development i) = s) := by
  refine ⟨?_, ?_, ?_, ?_⟩
  · intro s pid h
    have hfind := find?_policy_id_eq_none (l := s.hand) h
    simp only [Basic.gameReducer, hfind]
  · intro s pid did h1 h2 h3
    have hfind := findDev_eq_none h1 h2 h3
    simp only [Basic.gameReducer, hfind]
  · intro s i h
    have hfind := find?_policy_id_eq_none (l := s.policies) h
    simp only [Extended.gameReducer, hfind]
  · intro s i h1 h2 h3 h4
    have hfind := findDevX_eq_none h1 h2 h3 h4
    simp only [Extended.gameReducer, hfind]

/-- Witness for `C2_amended_missing_id_noop`: each no-op branch evaluated at
a concrete state with the unknown identifier `ghost`. -/
theorem C2_amended_witness :
    Basic.gameReducer c2State (Basic.Action.PLAY_POLICY "ghost") = c2State ∧
    Basic.gameReducer c2State (Basic.Action.ATTACH_DEV "p1" "ghost") = c2State ∧
    Extended.gameReducer c2xState
      (Extended.Action.DISCARD_CARD Extended.CardKind.policy "ghost") = c2xState ∧
    Extended.gameReducer c2xState
      (Extended.Action.DISCARD_CARD Extended.CardKind.development "ghost") = c2xState :=
  ⟨C2_amended_missing_id_noop.1 c2State "ghost" (by decide),
    C2_amended_missing_id_noop.2.1 c2State "p1" "ghost" (by decide) (by decide)
      (by decide),
    C2_amended_missing_id_noop.2.2.1 c2xState "ghost" (by decide),
    C2_amended_missing_id_noop.2.2.2 c2xState "ghost" (by decide) (by decide)
      (by decide) (by decide)⟩

/-- C3 counterexample: when the input pile is shorter than the requested
face-up count, `dealDevelopments` deals fewer cards than requested — on the
empty pile with face-up count 1 the dealt face-up list is empty, not of
length 1. -/
theorem C3_counterexample :
    (dealDevelopments ([] : List DevelopmentCard) 1 0).faceUp.length = 0 ∧
    (0 : Nat) ≠ 1 := by
  refine ⟨by decide, by decide⟩

/-- C3 (amended): the three result lists of `dealDevelopments` concatenate
back to the input pile for every pile and all counts, even negative ones or
counts exceeding the pile; and for non-negative counts `n` (face up) and `m`
(face down) with `n + m` not exceeding the pile size, it deals exactly `n`
cards face up and `m` face down and leaves exactly `|cards| - (n + m)`
cards. -/
theorem C3_amended_deal_counts (cards : List DevelopmentCard) (n m : Int) :
    ((dealDevelopments cards n m).faceUp ++ (dealDevelopments cards n m).faceDown ++
      (dealDevelopments cards n m).remaining = cards) ∧
    (0 ≤ n → 0 ≤ m → n.toNat + m.toNat ≤ cards.length →
      ((dealDevelopments cards n m).faceUp.length : Int) = n ∧
      ((dealDevelopments cards n m).faceDown.length : Int) = m ∧
      ((dealDevelopments cards n m).remaining.length : Int) =
        (cards.length : Int) - (n + m)) := by
  constructor
  · show (cards.take n.toNat ++ (cards.drop n.toNat).take m.toNat) ++
      ((cards.drop n.toNat).drop m.toNat) = cards
    rw [List.append_assoc, List.take_append_drop, List.take_append_drop]
  · intro hn hm hlen
    refine ⟨?_, ?_, ?_⟩
    · show ((cards.take n.toNat).length : Int) = n
      rw [List.length_take]
      omega
    · show (((cards.drop n.toNat).take m.toNat).length : Int) = m
      rw [List.length_take, List.length_drop]
      omega
    · show (((cards.drop n.toNat).drop m.toNat).length : Int) =
        (cards.length : Int) - (n + m)
      rw [List.length_drop, List.length_drop]
      omega

/-- Witness for `C3_amended_deal_counts`: the length clause on a two-card
pile with one face-up and one face-down card requested, and the
concatenation clause also at counts exceeding the pile. -/
theorem C3_amended_witness :
    ((dealDevelopments [xDev, yDev] 1 1).faceUp.length : Int) = 1 ∧
    ((dealDevelopments [xDev, yDev] 1 1).faceDown.length : Int) = 1 ∧
    ((dealDevelopments [xDev, yDev] 1 1).remaining.length : Int) =
      (([xDev, yDev] : List DevelopmentCard).length : Int) - (1 + 1) ∧
    (dealDevelopments [xDev, yDev] 1 1).faceUp ++
      (dealDevelopments [xDev, yDev] 1 1).faceDown ++
      (dealDevelopments [xDev, yDev] 1 1).remaining = [xDev, yDev] ∧
    (dealDevelopments [xDev] 5 7).faceUp ++ (dealDevelopments [xDev] 5 7).faceDown ++
      (dealDevelopments [xDev] 5 7).remaining = [xDev] := by
  obtain ⟨h1, h2, h3⟩ :=
    (C3_amended_deal_counts [xDev, yDev] 1 1).2 (by decide) (by decide) (by decide)
  exact ⟨h1, h2, h3, (C3_amended_deal_counts [xDev, yDev] 1 1).1,
    (C3_amended_deal_counts [xDev] 5 7).1⟩

/-- C5: every snapshot-pushing reducer action — `INIT_DECK`, `DEAL_STAGE`,
`DRAW_ROUND`, a `PLAY_POLICY` that implements a card, an `ATTACH_DEV` that
attaches a card, `AUTO_ATTACH` and `ADVANCE_STAGE` — appends the current
snapshot to the undo stack and returns a state whose redo stack is empty, in
the basic reducer and in the extended reducer alike (there the cap on
`PLAY_POLICY` is the modifier-adjusted one, and the effect machinery never
touches either stack), so no snapshot is simultaneously available for undo
and redo after a new move. -/
theorem C5_new_move_clears_future (s : Basic.GameState)
    (sx : Extended.GameState) :
    ((∀ (m : Manifest) (pol : List PolicyCard) (stg : StageMap) (st : GameSettings),
      (Basic.gameReducer s (Basic.Action.INIT_DECK m pol stg st)).future = [] ∧
      (Basic.gameReducer s (Basic.Action.INIT_DECK m pol stg st)).history =
        s.history ++ [Basic.createSnapshot s]) ∧
    ((Basic.gameReducer s Basic.Action.DEAL_STAGE).future = [] ∧
      (Basic.gameReducer s Basic.Action.DEAL_STAGE).history =
        s.history ++ [Basic.createSnapshot s]) ∧
    ((Basic.gameReducer s Basic.Action.DRAW_ROUND).future = [] ∧
      (Basic.gameReducer s Basic.Action.DRAW_ROUND).history =
        s.history ++ [Basic.createSnapshot s]) ∧
    (∀ (pid : String) (policy : PolicyCard),
      s.hand.find? (fun item => item.id == pid) = some policy →
      (s.implemented.length : Int) < s.settings.maxPoliciesPerRound →
      (Basic.gameReducer s (Basic.Action.PLAY_POLICY pid)).future = [] ∧
      (Basic.gameReducer s (Basic.Action.PLAY_POLICY pid)).history =
        s.history ++ [Basic.createSnapshot s]) ∧
    (∀ (pid did : String) (dev : DevelopmentCard), Basic.findDev s did = some dev →
      (Basic.gameReducer s (Basic.Action.ATTACH_DEV pid did)).future = [] ∧
      (Basic.gameReducer s (Basic.Action.ATTACH_DEV pid did)).history =
        s.history ++ [Basic.createSnapshot s]) ∧
    ((Basic.gameReducer s Basic.Action.AUTO_ATTACH).future = [] ∧
      (Basic.gameReducer s Basic.Action.AUTO_ATTACH).history =
        s.history ++ [Basic.createSnapshot s]) ∧
    ((Basic.gameReducer s Basic.Action.ADVANCE_STAGE).future = [] ∧
      (Basic.gameReducer s Basic.Action.ADVANCE_STAGE).history =
        s.history ++ [Basic.createSnapshot s])) ∧
    ((∀ (m : Manifest) (pol : List PolicyCard) (stg : StageMap) (st : GameSettings),
      (Extended.gameReducer sx (Extended.Action.INIT_DECK m pol stg st)).future = [] ∧
      (Extended.gameReducer sx (Extended.Action.INIT_DECK m pol stg st)).history =
        sx.history ++ [Extended.createSnapshot sx]) ∧
    ((Extended.gameReducer sx Extended.Action.DEAL_STAGE).future = [] ∧
      (Extended.gameReducer sx Extended.Action.DEAL_STAGE).history =
        sx.history ++ [Extended.createSnapshot sx]) ∧
    ((Extended.gameReducer sx Extended.Action.DRAW_ROUND).future = [] ∧
      (Extended.gameReducer sx Extended.Action.DRAW_ROUND).history =
        sx.history ++ [Extended.createSnapshot sx]) ∧
    (∀ (pid : String) (policy : PolicyCard),
      sx.hand.find? (fun item => item.id == pid) = some policy →
      (sx.implemented.length : Int) < max 0 (sx.settings.maxPoliciesPerRound +
        sx.roundModifiers.maxPoliciesDeltaThisRound) →
      (Extended.gameReducer sx (Extended.Action.PLAY_POLICY pid)).future = [] ∧
      (Extended.gameReducer sx (Extended.Action.PLAY_POLICY pid)).history =
        sx.history ++ [Extended.createSnapshot sx]) ∧
    (∀ (pid did : String) (dev : DevelopmentCard),
      Extended.findDev sx did = some dev →
      (Extended.gameReducer sx (Extended.Action.ATTACH_DEV pid did)).future = [] ∧
      (Extended.gameReducer sx (Extended.Action.ATTACH_DEV pid did)).history =
        sx.history ++ [Extended.createSnapshot sx]) ∧
    ((Extended.gameReducer sx Extended.Action.AUTO_ATTACH).future = [] ∧
      (Extended.gameReducer sx Extended.Action.AUTO_ATTACH).history =
        sx.history ++ [Extended.createSnapshot sx]) ∧
    ((Extended.gameReducer sx Extended.Action.ADVANCE_STAGE).future = [] ∧
      (Extended.gameReducer sx Extended.Action.ADVANCE_STAGE).history =
        sx.history ++ [Extended.createSnapshot sx])) := by
  constructor
  · refine ⟨fun m pol stg st => ⟨rfl, rfl⟩, ⟨rfl, rfl⟩, ⟨rfl, rfl⟩, ?_, ?_,
      ⟨rfl, rfl⟩, ⟨rfl, rfl⟩⟩
    · intro pid policy hfind hcap
      simp only [Basic.gameReducer, hfind, if_neg (not_le.mpr hcap)]
      exact ⟨trivial, trivial⟩
    · intro pid did dev hfind
      simp only [Basic.gameReducer, hfind]
      exact ⟨trivial, trivial⟩
  · refine ⟨fun m pol stg st => ⟨rfl, rfl⟩, ⟨?_, ?_⟩, ⟨?_, ?_⟩, ?_, ?_,
      ⟨?_, ?_⟩, ⟨rfl, rfl⟩⟩
    · simp only [Extended.gameReducer]
      rw [aefd_future]
    · simp only [Extended.gameReducer]
      rw [aefd_history]
    · simp only [Extended.gameReducer]
      rw [aefd_future]
    · simp only [Extended.gameReducer]
      rw [aefd_history]
    · intro pid policy hfind hcap
      simp only [Extended.gameReducer, hfind, if_neg (not_le.mpr hcap)]
      exact ⟨trivial, trivial⟩
    · intro pid did dev hfind
      constructor
      · simp only [Extended.gameReducer, hfind]
        rw [aefd_future]
      · simp only [Extended.gameReducer, hfind]
        rw [aefd_history]
    · simp only [Extended.gameReducer]
      rw [aefd_future]
    · simp only [Extended.gameReducer]
      rw [aefd_history]

/-- Witness for `C5_new_move_clears_future` at the concrete states `c2State`
(hand holds `p1`, `x` face up) and `c5xState` (its extended counterpart). -/
theorem C5_witness :
    (Basic.gameReducer c2State (Basic.Action.PLAY_POLICY "p1")).future = [] ∧
    (Basic.gameReducer c2State (Basic.Action.ATTACH_DEV "p1" "x")).future = [] ∧
    (Basic.gameReducer c2State Basic.Action.DEAL_STAGE).future = [] ∧
    (Extended.gameReducer c5xState (Extended.Action.PLAY_POLICY "p1")).future = [] ∧
    (Extended.gameReducer c5xState (Extended.Action.ATTACH_DEV "p1" "x")).future = [] ∧
    (Extended.gameReducer c5xState Extended.Action.DEAL_STAGE).future = [] :=
  ⟨((C5_new_move_clears_future c2State c5xState).1.2.2.2.1 "p1" p1Policy
      (by decide) (by decide)).1,
    ((C5_new_move_clears_future c2State c5xState).1.2.2.2.2.1 "p1" "x" xDev
      (by decide)).1,
    ((C5_new_move_clears_future c2State c5xState).1.2.1).1,
    ((C5_new_move_clears_future c2State c5xState).2.2.2.2.1 "p1" p1Policy
      (by decide) (by decide)).1,
    ((C5_new_move_clears_future c2State c5xState).2.2.2.2.2.1 "p1" "x" xDev
      (by decide)).1,
    ((C5_new_move_clears_future c2State c5xState).2.2.1).1⟩

/-- C6: both reducers are deterministic pure functions — the result of
`gameReducer` depends only on the input state and action, so any two
evaluations on the same inputs agree.  The shallow embedding makes this
definitional (the source reads no clock, randomness or other ambient state
inside the reducer). -/
theorem C6_reducer_deterministic :
    (∀ (s : Basic.GameState) (a : Basic.Action) (r₁ r₂ : Basic.GameState),
      Basic.gameReducer s a = r₁ → Basic.gameReducer s a = r₂ → r₁ = r₂) ∧
    (∀ (s : Extended.GameState) (a : Extended.Action) (r₁ r₂ : Extended.GameState),
      Extended.gameReducer s a = r₁ → Extended.gameReducer s a = r₂ → r₁ = r₂) :=
  ⟨fun _ _ _ _ h₁ h₂ => h₁.symm.trans h₂, fun _ _ _ _ h₁ h₂ => h₁.symm.trans h₂⟩

/-- Witness for `C6_reducer_deterministic` at a concrete state and action for
each reducer. -/
theorem C6_witness :
    Basic.gameReducer c2State Basic.Action.DEAL_STAGE =
      Basic.gameReducer c2State Basic.Action.DEAL_STAGE ∧
    Extended.gameReducer c2xState Extended.Action.ADVANCE_STAGE =
      Extended.gameReducer c2xState Extended.Action.ADVANCE_STAGE :=
  ⟨C6_reducer_deterministic.1 c2State Basic.Action.DEAL_STAGE _ _ rfl rfl,
    C6_reducer_deterministic.2 c2xState Extended.Action.ADVANCE_STAGE _ _ rfl rfl⟩

theorem undo_of_concat (p : Basic.Snapshot) (l : List Basic.Snapshot)
    (st : Basic.GameState) (hh : st.history = l ++ [p]) :
    Basic.gameReducer st Basic.Action.UNDO =
      p.toState l (Basic.createSnapshot st :: st.future) := by
  simp only [Basic.gameReducer, hh, List.getLast?_concat, List.dropLast_concat]

/-- C7: undo and redo are mutually inverse round trips.  When the history
stack is non-empty, `UNDO` followed by `REDO` restores the state exactly,
history and future stacks included; symmetrically, when the future stack is
non-empty, `REDO` followed by `UNDO` restores the state exactly. -/
theorem C7_undo_redo_roundtrip (s : Basic.GameState) :
    (s.history ≠ [] →
      Basic.gameReducer (Basic.gameReducer s Basic.Action.UNDO)
        Basic.Action.REDO = s) ∧
    (s.future ≠ [] →
      Basic.gameReducer (Basic.gameReducer s Basic.Action.REDO)
        Basic.Action.UNDO = s) := by
  constructor
  · intro h
    rcases List.eq_nil_or_concat' s.history with h0 | ⟨l, p, hh⟩
    · exact absurd h0 h
    · rw [undo_of_concat p l s hh]
      show (Basic.createSnapshot s).toState (l ++ [p]) s.future = s
      rw [← hh]
      rfl
  · intro h
    cases hf : s.future with
    | nil => exact absurd hf h
    | cons next rest =>
      have h1 : Basic.gameReducer s Basic.Action.REDO =
          next.toState (s.history ++ [Basic.createSnapshot s]) rest := by
        simp only [Basic.gameReducer, hf]
      rw [h1, undo_of_concat (Basic.createSnapshot s) s.history _ rfl]
      show (Basic.createSnapshot s).toState s.history (next :: rest) = s
      rw [← hf]
      rfl

/-- Witness for `C7_undo_redo_roundtrip` at the concrete state `c7State`,
which has both a non-empty history and a non-empty future. -/
theorem C7_witness :
    Basic.gameReducer (Basic.gameReducer c7State Basic.Action.UNDO)
      Basic.Action.REDO = c7State ∧
    Basic.gameReducer (Basic.gameReducer c7State Basic.Action.REDO)
      Basic.Action.UNDO = c7State :=
  ⟨(C7_undo_redo_roundtrip c7State).1 (by decide),
    (C7_undo_redo_roundtrip c7State).2 (by decide)⟩

/-- C8 counterexample: the played policy's attachment bucket is not
necessarily empty.  In `c8State` the bucket of `p1` already holds `x` before
`p1` is played; `PLAY_POLICY` keeps that bucket (`attachments[policy.id] ||
[]`), so after playing, the bucket of the just-implemented policy is `[x]`,
not `[]`. -/
theorem C8_counterexample :
    (Basic.gameReducer c8State (Basic.Action.PLAY_POLICY "p1")).implemented =
      [p1Policy] ∧
    lookupAttach (Basic.gameReducer c8State
      (Basic.Action.PLAY_POLICY "p1")).attachments "p1" = some [xDev] ∧
    some [xDev] ≠ some ([] : List DevelopmentCard) := by
  refine ⟨by decide, by decide, by decide⟩

/-- C8 (amended): `PLAY_POLICY` never grows `implemented` beyond the
effective cap — `settings.maxPoliciesPerRound` in the basic reducer, and
`max 0 (settings.maxPoliciesPerRound + roundModifiers.maxPoliciesDeltaThisRound)`
in the extended reducer, where a positive round modifier raises the limit
above the configured setting — with `implemented` at or above that cap the
reducer returns the state unchanged; otherwise a `PLAY_POLICY` naming a card
in the hand appends exactly that policy to `implemented`, removes it from
the hand, and gives it an attachment bucket equal to whatever `attachments`
already stored under its id, or the empty bucket if nothing was stored. -/
theorem C8_amended_play_policy_cap (s : Basic.GameState)
    (sx : Extended.GameState) (pid : String) :
    ((s.implemented.length : Int) ≥ s.settings.maxPoliciesPerRound →
      Basic.gameReducer s (Basic.Action.PLAY_POLICY pid) = s) ∧
    (∀ policy : PolicyCard,
      s.hand.find? (fun item => item.id == pid) = some policy →
      (s.implemented.length : Int) < s.settings.maxPoliciesPerRound →
      (Basic.gameReducer s (Basic.Action.PLAY_POLICY pid)).implemented =
        s.implemented ++ [policy] ∧
      (Basic.gameReducer s (Basic.Action.PLAY_POLICY pid)).hand =
        s.hand.filter (fun item => item.id != pid) ∧
      lookupAttach (Basic.gameReducer s (Basic.Action.PLAY_POLICY pid)).attachments
        policy.id = some ((lookupAttach s.attachments policy.id).getD [])) ∧
    ((sx.implemented.length : Int) ≥ max 0 (sx.settings.maxPoliciesPerRound +
        sx.roundModifiers.maxPoliciesDeltaThisRound) →
      Extended.gameReducer sx (Extended.Action.PLAY_POLICY pid) = sx) ∧
    (∀ policy : PolicyCard,
      sx.hand.find? (fun item => item.id == pid) = some policy →
      (sx.implemented.length : Int) < max 0 (sx.settings.maxPoliciesPerRound +
        sx.roundModifiers.maxPoliciesDeltaThisRound) →
      (Extended.gameReducer sx (Extended.Action.PLAY_POLICY pid)).implemented =
        sx.implemented ++ [policy] ∧
      (Extended.gameReducer sx (Extended.Action.PLAY_POLICY pid)).hand =
        sx.hand.filter (fun item => item.id != pid) ∧
      lookupAttach (Extended.gameReducer sx
          (Extended.Action.PLAY_POLICY pid)).attachments policy.id =
        some ((lookupAttach sx.attachments policy.id).getD [])) := by
  refine ⟨?_, ?_, ?_, ?_⟩
  · intro hcap
    cases hfind : s.hand.find? (fun item => item.id == pid) with
    | none => simp only [Basic.gameReducer, hfind]
    | some policy => simp only [Basic.gameReducer, hfind, if_pos hcap]
  · intro policy hfind hlt
    have hred : Basic.gameReducer s (Basic.Action.PLAY_POLICY pid) =
        { s with
          implemented := s.implemented ++ [policy]
          hand := s.hand.filter (fun item => item.id != pid)
          attachments := setAttach s.attachments policy.id
            ((lookupAttach s.attachments policy.id).getD [])
          history := s.history ++ [Basic.createSnapshot s]
          future := []
          log := s.log ++ ["Implemented " ++ policy.title ++ "."] } := by
      simp only [Basic.gameReducer, hfind, if_neg (not_le.mpr hlt)]
    rw [hred]
    exact ⟨rfl, rfl, lookupAttach_setAttach _ _ _⟩
  · intro hcap
    cases hfind : sx.hand.find? (fun item => item.id == pid) with
    | none => simp only [Extended.gameReducer, hfind]
    | some policy => simp only [Extended.gameReducer, hfind, if_pos hcap]
  · intro policy hfind hlt
    have hred : Extended.gameReducer sx (Extended.Action.PLAY_POLICY pid) =
        { sx with
          implemented := sx.implemented ++ [policy]
          hand := sx.hand.filter (fun item => item.id != pid)
          attachments := setAttach sx.attachments policy.id
            ((lookupAttach sx.attachments policy.id).getD [])
          history := sx.history ++ [Extended.createSnapshot sx]
          future := []
          log := sx.log ++ ["Implemented " ++ policy.title ++ "."] } := by
      simp only [Extended.gameReducer, hfind, if_neg (not_le.mpr hlt)]
    rw [hred]
    exact ⟨rfl, rfl, lookupAttach_setAttach _ _ _⟩

/-- Witness for `C8_amended_play_policy_cap`: the cap branches at
`c8CapState` and `c8xCapState` (one policy implemented, effective cap 1) and
the play branches at `c2State` and `c5xState` (empty `implemented`, `p1` in
hand). -/
theorem C8_amended_witness :
    Basic.gameReducer c8CapState (Basic.Action.PLAY_POLICY "p1") = c8CapState ∧
    (Basic.gameReducer c2State (Basic.Action.PLAY_POLICY "p1")).implemented =
      c2State.implemented ++ [p1Policy] ∧
    Extended.gameReducer c8xCapState (Extended.Action.PLAY_POLICY "p1") =
      c8xCapState ∧
    (Extended.gameReducer c5xState (Extended.Action.PLAY_POLICY "p1")).implemented =
      c5xState.implemented ++ [p1Policy] :=
  ⟨(C8_amended_play_policy_cap c8CapState c8xCapState "p1").1 (by decide),
    ((C8_amended_play_policy_cap c2State c5xState "p1").2.1 p1Policy (by decide)
      (by decide)).1,
    (C8_amended_play_policy_cap c8CapState c8xCapState "p1").2.2.1 (by decide),
    ((C8_amended_play_policy_cap c2State c5xState "p1").2.2.2 p1Policy (by decide)
      (by decide)).1⟩

/-- C9: `SELECT_DEV` changes only the `selectedDevId` field and
`SELECT_POLICY` changes only the `selectedPolicyId` field, in both reducers:
the result is the input state with exactly that one field replaced — in
particular no snapshot is pushed, the redo stack is not cleared, and piles,
hand, attachments and log are untouched. -/
theorem C9_select_frame (s : Basic.GameState) (sx : Extended.GameState)
    (d p : Option String) :
    Basic.gameReducer s (Basic.Action.SELECT_DEV d) =
      { s with selectedDevId := d } ∧
    Basic.gameReducer s (Basic.Action.SELECT_POLICY p) =
      { s with selectedPolicyId := p } ∧
    Extended.gameReducer sx (Extended.Action.SELECT_DEV d) =
      { sx with selectedDevId := d } ∧
    Extended.gameReducer sx (Extended.Action.SELECT_POLICY p) =
      { sx with selectedPolicyId := p } :=
  ⟨rfl, rfl, rfl, rfl⟩
